import Mathlib

/-!
Verification development for the sandboxed code-execution subsystem of the
`code-editor` repository (Python backend under `src/backend/app`).

Python strings are modelled as lists of Unicode code points (`PyStr := List Nat`).
Python's `str` methods used by the code (`strip`, `lower`, `replace`,
`startswith`, membership) are embedded as executable functions below, and the
regular expressions that the executors use are embedded by dedicated matchers
(a small token-pattern matcher plus a few special-shape scanners), faithful to
CPython `re` semantics for the concrete patterns appearing in the source
(for those patterns, adjacent sub-patterns match disjoint character sets, so
greedy maximal-munch scanning coincides with the backtracking semantics).

Operating-system effects (process spawning, signalling, the temp-directory
lifecycle) are modelled by explicit behaviour oracles and event traces:
an execution's interaction with the OS is a value of a behaviour structure
(what the spawned process would print, whether it finishes in time, whether
signalling it raises, whether directory creation succeeds, ...) and each
embedded function returns, besides its Python return value, the list of
observable OS events it performs, in order.  POSIX is assumed throughout
(`os.name != 'nt'`), matching the deployment the code targets.
-/

namespace CodeEditor

/-- Python strings as lists of code points. -/
abbrev PyStr := List Nat

/-- Code points of a Lean string literal, used to write `PyStr` constants. -/
def str2l (s : String) : PyStr := s.data.map Char.toNat

/-- ASCII whitespace, the model of Python's `str.isspace` characters
(`' '`, `\t`, `\n`, `\v`, `\f`, `\r`). -/
def wsB (c : Nat) : Bool := c = 32 || c = 9 || c = 10 || c = 11 || c = 12 || c = 13

/-- Python `\w` (ASCII model): letters, digits, underscore. -/
def isWordChar (c : Nat) : Bool :=
  (48 ≤ c && c ≤ 57) || (65 ≤ c && c ≤ 90) || (97 ≤ c && c ≤ 122) || c = 95

/-- ASCII letter. -/
def isAlphaChar (c : Nat) : Bool := (65 ≤ c && c ≤ 90) || (97 ≤ c && c ≤ 122)

/-- ASCII digit. -/
def isDigitChar (c : Nat) : Bool := 48 ≤ c && c ≤ 57

/-- ASCII lower-casing of one code point (model of `str.lower` per character). -/
def lowerChar (c : Nat) : Nat := if 65 ≤ c ∧ c ≤ 90 then c + 32 else c

/-- Model of Python `str.lower`. -/
def pyLower (s : PyStr) : PyStr := s.map lowerChar

/-- Left part of `str.strip`. -/
def stripLeft (s : PyStr) : PyStr := s.dropWhile wsB

/-- Model of Python `str.strip` (no argument): drop whitespace from both ends. -/
def pyStrip (s : PyStr) : PyStr := ((s.dropWhile wsB).reverse.dropWhile wsB).reverse

/-- Decimal digits of a natural number, as code points (model of `str(n)` for `n ≥ 0`). -/
def natStr (n : Nat) : PyStr := str2l (Nat.repr n)

/-- `int()` of a nonempty digit string. -/
def digitsToNat (ds : PyStr) : Nat := ds.foldl (fun a c => a * 10 + (c - 48)) 0

/-- `needle` occurs as a prefix of `hay`: on success returns the rest of `hay`. -/
def matchLit : PyStr → PyStr → Option PyStr
  | [], s => some s
  | _ :: _, [] => none
  | c :: cs, a :: s => if a = c then matchLit cs s else none

/-- Model of Python `needle in hay` (substring containment). -/
def containsSub (needle : PyStr) (hay : PyStr) : Bool :=
  match hay with
  | [] => (matchLit needle []).isSome
  | _ :: rest => (matchLit needle hay).isSome || containsSub needle rest

/-- Model of `str.startswith`. -/
def startsWith (needle s : PyStr) : Bool := (matchLit needle s).isSome

/-- Model of `str.split('\n')`. -/
def splitNL (s : PyStr) : List PyStr :=
  match s with
  | [] => [[]]
  | c :: rest =>
    let r := splitNL rest
    if c = 10 then [] :: r
    else
      match r with
      | [] => [[c]]
      | l :: ls => (c :: l) :: ls

/-- `code.replace('\x00', '')`. -/
def removeNul (s : PyStr) : PyStr := s.filter (fun c => !(c = 0))

/-- `code.replace('\r\n', '\n')`: leftmost non-overlapping global replacement. -/
def replaceCRLF : PyStr → PyStr
  | [] => []
  | [c] => [c]
  | c :: d :: rest =>
    if c = 13 ∧ d = 10 then 10 :: replaceCRLF rest
    else c :: replaceCRLF (d :: rest)

/-- `code.replace('\r', '\n')`. -/
def replaceCR (s : PyStr) : PyStr := s.map (fun c => if c = 13 then 10 else c)

/-- The NUL-strip / line-ending normalization applied to `code` and `input`
by `ExecutionRequest.sanitize`. -/
def sanitizeText (s : PyStr) : PyStr := replaceCR (replaceCRLF (removeNul s))

/-! ## Pattern matcher

A token pattern denotes the concrete regex shapes appearing in the executors:
word boundaries, literal characters, `\s*`, `\s+`, `\w*` and one `(\w+)`
capture group.  In every deny-list pattern of the source, the character sets
of adjacent variable-width tokens are disjoint, so the greedy maximal-munch
matching below computes exactly what CPython's backtracking engine does. -/

inductive PatTok where
  | lit (c : Nat)
  | bnd
  | wsStar
  | wsPlus
  | wordStar
  | wordPlus
deriving Repr, DecidableEq

/-- Tokens of a literal run. -/
def lits (s : String) : List PatTok := (str2l s).map .lit

/-- Character comparison, optionally case-insensitive (`re.IGNORECASE`). -/
def charEq (ic : Bool) (a c : Nat) : Bool :=
  if ic then lowerChar a = lowerChar c else a = c

/-- `\b`: exactly one of the neighbouring characters is a word character. -/
def bndOK (prev next : Option Nat) : Bool :=
  (match prev with | some c => isWordChar c | none => false) !=
  (match next with | some c => isWordChar c | none => false)

/-- Match a token pattern at the current position.  Returns the list of
captured `(\w+)` groups, the last character consumed (for later word-boundary
context) and the remaining string. -/
def matchToks (ic : Bool) : List PatTok → Option Nat → PyStr →
    Option (List PyStr × Option Nat × PyStr)
  | [], prev, s => some ([], prev, s)
  | .bnd :: ts, prev, s =>
    if bndOK prev s.head? then matchToks ic ts prev s else none
  | .lit c :: ts, prev, s =>
    match s with
    | [] => none
    | a :: r => if charEq ic a c then matchToks ic ts (some a) r else none
  | .wsStar :: ts, prev, s =>
    let w := s.takeWhile wsB
    matchToks ic ts (match w.getLast? with | some a => some a | none => prev)
      (s.dropWhile wsB)
  | .wsPlus :: ts, prev, s =>
    let w := s.takeWhile wsB
    if w = [] then none
    else matchToks ic ts w.getLast? (s.dropWhile wsB)
  | .wordStar :: ts, prev, s =>
    let w := s.takeWhile isWordChar
    matchToks ic ts (match w.getLast? with | some a => some a | none => prev)
      (s.dropWhile isWordChar)
  | .wordPlus :: ts, prev, s =>
    let w := s.takeWhile isWordChar
    if w = [] then none
    else
      match matchToks ic ts w.getLast? (s.dropWhile isWordChar) with
      | some (caps, lc, rest) => some (w :: caps, lc, rest)
      | none => none

/-- Try the pattern at every position, left to right (`re.search`). -/
def searchToksAux (ic : Bool) (toks : List PatTok) : Option Nat → PyStr →
    Option (List PyStr)
  | prev, [] =>
    match matchToks ic toks prev [] with
    | some (caps, _, _) => some caps
    | none => none
  | prev, c :: rest =>
    match matchToks ic toks prev (c :: rest) with
    | some (caps, _, _) => some caps
    | none => searchToksAux ic toks (some c) rest

/-- `re.search(pattern, s, flags)` is not `None`. -/
def reSearch (ic : Bool) (toks : List PatTok) (s : PyStr) : Bool :=
  (searchToksAux ic toks none s).isSome

/-- All captures of non-overlapping matches, scanning left to right
(`re.finditer`, one capture group per pattern; fuel bounds the scan). -/
def findIterAux (ic : Bool) (toks : List PatTok) :
    Nat → Option Nat → PyStr → List PyStr
  | 0, _, _ => []
  | fuel + 1, prev, s =>
    match matchToks ic toks prev s with
    | some (caps, lc, rest) =>
      if rest.length < s.length then caps ++ findIterAux ic toks fuel lc rest
      else caps
    | none =>
      match s with
      | [] => []
      | c :: rest => findIterAux ic toks fuel (some c) rest

/-- Captured groups of all matches of the pattern (`re.finditer`). -/
def findIterCaps (ic : Bool) (toks : List PatTok) (s : PyStr) : List PyStr :=
  findIterAux ic toks (s.length + 1) none s

/-! ## Security screens (deny lists)

`PythonExecutor.validate_python_code`, `CExecutor.validate_c_code`,
`GoExecutor.validate_go_code`.  Each table entry carries the pattern's source
text, because the rejection message interpolates it. -/

/-- `PythonExecutor.validate_python_code` dangerous patterns
(the `input()` pattern is appended only when `allow_input` is false). -/
def pyDangerousPatterns (allowInput : Bool) : List (List PatTok × PyStr) :=
  [([.bnd] ++ lits "os.system" ++ [.bnd], str2l "\\bos\\.system\\b"),
   ([.bnd] ++ lits "subprocess.", str2l "\\bsubprocess\\."),
   ([.bnd] ++ lits "eval" ++ [.wsStar, .lit 40], str2l "\\beval\\s*\\("),
   ([.bnd] ++ lits "exec" ++ [.wsStar, .lit 40], str2l "\\bexec\\s*\\("),
   ([.bnd] ++ lits "__import__" ++ [.wsStar, .lit 40], str2l "\\b__import__\\s*\\("),
   ([.bnd] ++ lits "open" ++ [.wsStar, .lit 40], str2l "\\bopen\\s*\\("),
   ([.bnd] ++ lits "file" ++ [.wsStar, .lit 40], str2l "\\bfile\\s*\\(")] ++
  (if allowInput then []
   else [([.bnd] ++ lits "input" ++ [.wsStar, .lit 40], str2l "\\binput\\s*\\(")])

/-- Modules whose import the Python screen rejects. -/
def pyDangerousModules : List PyStr :=
  [str2l "os", str2l "subprocess", str2l "shutil", str2l "glob", str2l "socket",
   str2l "urllib", str2l "requests", str2l "http", str2l "ftplib", str2l "smtplib",
   str2l "pickle", str2l "marshal", str2l "shelve", str2l "dbm"]

/-- `r'\bimport\s+(\w+)'`. -/
def pyImportToks : List PatTok := [.bnd] ++ lits "import" ++ [.wsPlus, .wordPlus]

/-- `r'\bfrom\s+(\w+)\s+import'`. -/
def pyFromImportToks : List PatTok :=
  [.bnd] ++ lits "from" ++ [.wsPlus, .wordPlus, .wsPlus] ++ lits "import"

/-- `PythonExecutor.validate_python_code`: `none` means the code passed the
screen; `some msg` is the returned rejection message. -/
def validate_python_code (code : PyStr) (allowInput : Bool) : Option PyStr :=
  match (pyDangerousPatterns allowInput).find? (fun p => reSearch true p.1 code) with
  | some p => some (str2l "Code contains potentially unsafe operation: " ++ p.2)
  | none =>
    match (findIterCaps false pyImportToks code).find?
        (fun m => pyDangerousModules.contains m) with
    | some m => some (str2l "Import of potentially unsafe module: " ++ m)
    | none =>
      match (findIterCaps false pyFromImportToks code).find?
          (fun m => pyDangerousModules.contains m) with
      | some m => some (str2l "Import from potentially unsafe module: " ++ m)
      | none => none

/-! ## Data model (`app/models/execution.py`, `app/models/language.py`) -/

/-- `ExecutionRequest` (typed model; the `isinstance` checks of `validate`
hold by typing). -/
structure ExecutionRequest where
  language : PyStr
  code : PyStr
  input : Option PyStr := none
  timeout : Option Int := none
deriving Repr, DecidableEq

/-- `ExecutionError` (`line`/`details` optional). -/
structure ExecutionError where
  type : PyStr
  message : PyStr
  line : Option Int := none
  details : Option PyStr := none
deriving Repr, DecidableEq

/-- `ExecutionResult`.  Wall-clock `execution_time` and `memory_usage` are
real-time/OS measurements and are not modelled. -/
structure ExecutionResult where
  success : Bool
  output : PyStr := []
  error : Option ExecutionError := none
  timeout : Bool := false
deriving Repr, DecidableEq

/-- `re.match(r'^[a-zA-Z][a-zA-Z0-9_]*$', s)` is not `None`, with CPython
semantics: `$` also matches just before a single newline at the very end of
the string. -/
def langPatternPyMatch (s : PyStr) : Bool :=
  let core := if s.getLast? = some 10 then s.dropLast else s
  match core with
  | [] => false
  | c :: rest => isAlphaChar c && rest.all isWordChar

/-- `ExecutionRequest.validate`: the list of error messages, in source order. -/
def ExecutionRequest.validationErrors (r : ExecutionRequest) : List PyStr :=
  (if r.language = [] then [str2l "Language is required and must be a string"]
   else if !langPatternPyMatch r.language then
     [str2l "Language must contain only alphanumeric characters and underscores"]
   else []) ++
  (if r.code = [] then [str2l "Code is required and must be a string"]
   else if (pyStrip r.code).length = 0 then [str2l "Code cannot be empty"]
   else if r.code.length > 50000 then
     [str2l "Code is too long (maximum 50,000 characters)"]
   else []) ++
  (match r.input with
   | none => []
   | some i => if i.length > 10000 then
       [str2l "Input is too long (maximum 10,000 characters)"] else []) ++
  (match r.timeout with
   | none => []
   | some t => if t < 1 ∨ t > 60 then
       [str2l "Timeout must be between 1 and 60 seconds"] else [])

/-- `ExecutionRequest.validate().valid`. -/
def ExecutionRequest.validOK (r : ExecutionRequest) : Bool :=
  r.validationErrors.length = 0

/-- `ExecutionRequest.sanitize`. -/
def ExecutionRequest.sanitize (r : ExecutionRequest) : ExecutionRequest :=
  { language := pyStrip (pyLower r.language)
    code := sanitizeText r.code
    input := r.input.map sanitizeText
    timeout := r.timeout }

/-- One entry of the static language catalog (`app/models/language.py`);
fields not used by the execution subsystem are omitted. -/
structure Language where
  id : PyStr
  name : PyStr
  file_extension : PyStr
  supports_input : Bool := true
  timeout_seconds : Nat := 30
deriving Repr, DecidableEq

/-- `SUPPORTED_LANGUAGES`. -/
def SUPPORTED_LANGUAGES : List Language :=
  [⟨str2l "c", str2l "C", str2l ".c", true, 30⟩,
   ⟨str2l "cpp", str2l "C++", str2l ".cpp", true, 30⟩,
   ⟨str2l "csharp", str2l "C#", str2l ".cs", true, 30⟩,
   ⟨str2l "css", str2l "CSS", str2l ".css", false, 0⟩,
   ⟨str2l "go", str2l "Go", str2l ".go", true, 30⟩,
   ⟨str2l "html", str2l "HTML", str2l ".html", false, 0⟩,
   ⟨str2l "java", str2l "Java", str2l ".java", true, 30⟩,
   ⟨str2l "javascript", str2l "JavaScript", str2l ".js", true, 30⟩,
   ⟨str2l "php", str2l "PHP", str2l ".php", true, 30⟩,
   ⟨str2l "python", str2l "Python", str2l ".py", true, 30⟩,
   ⟨str2l "r", str2l "R", str2l ".r", true, 30⟩,
   ⟨str2l "ruby", str2l "Ruby", str2l ".rb", true, 30⟩,
   ⟨str2l "rust", str2l "Rust", str2l ".rs", true, 30⟩,
   ⟨str2l "typescript", str2l "TypeScript", str2l ".ts", true, 30⟩]

/-- `get_language_by_id`. -/
def get_language_by_id (languageId : PyStr) : Option Language :=
  SUPPORTED_LANGUAGES.find? (fun l => l.id = languageId)

/-! ## Special-shape regex scanners used by the error classifiers -/

/-- After a literal `File "`: the lazy gap of `r'File ".*?", line (\d+)'`
(`.` does not cross a newline), then `", line ` and the greedy digits. -/
def tbGap : PyStr → Option Nat
  | [] => none
  | c :: rest =>
    match matchLit (str2l "\", line ") (c :: rest) with
    | some r =>
      let ds := r.takeWhile isDigitChar
      if ds = [] then (if c = 10 then none else tbGap rest)
      else some (digitsToNat ds)
    | none => if c = 10 then none else tbGap rest

/-- `re.search(r'File ".*?", line (\d+)', s)`: the captured line number. -/
def searchTB : PyStr → Option Nat
  | [] => none
  | c :: rest =>
    match matchLit (str2l "File \"") (c :: rest) with
    | some r =>
      match tbGap r with
      | some n => some n
      | none => searchTB rest
    | none => searchTB rest

/-- `re.search(LIT ++ '(.+)', s)`: first position where the literal is
followed by at least one non-newline character; the captured rest-of-line. -/
def searchLitDotPlus (lit : PyStr) : PyStr → Option PyStr
  | [] => none
  | c :: rest =>
    match matchLit lit (c :: rest) with
    | some r =>
      let g := r.takeWhile (fun a => !(a = 10))
      if g = [] then searchLitDotPlus lit rest else some g
    | none => searchLitDotPlus lit rest

/-- `\s*(.+)` anchored at the current position (with the backtracking CPython
performs when the whitespace run reaches the end of the string). -/
def afterWsDotPlus (t : PyStr) : Option PyStr :=
  let r := t.dropWhile wsB
  if r ≠ [] then some (r.takeWhile (fun a => !(a = 10)))
  else
    match (t.filter (fun a => !(a = 10))).getLast? with
    | some a => some [a]
    | none => none

/-- `re.search(MARKER ++ r'\s*(.+)', s)`: the captured message text. -/
def searchMarkerWsDotPlus (marker : PyStr) : PyStr → Option PyStr
  | [] => none
  | c :: rest =>
    match matchLit marker (c :: rest) with
    | some r =>
      match afterWsDotPlus r with
      | some g => some g
      | none => searchMarkerWsDotPlus marker rest
    | none => searchMarkerWsDotPlus marker rest

/-- `r':(\d+):(?:\d+:)?\s*MARKER'` anchored at the current position:
the captured first digit group. -/
def lineMarkAt (marker : PyStr) (s : PyStr) : Option Nat :=
  match s with
  | [] => none
  | c :: r =>
    if c = 58 then
      let ds := r.takeWhile isDigitChar
      let r2 := r.dropWhile isDigitChar
      if ds = [] then none
      else
        match r2 with
        | [] => none
        | c2 :: r3 =>
          if c2 = 58 then
            let ds2 := r3.takeWhile isDigitChar
            let r4 := r3.dropWhile isDigitChar
            let withOpt : Bool :=
              if ds2 ≠ [] then
                match r4 with
                | c3 :: r5 => c3 = 58 && (matchLit marker (r5.dropWhile wsB)).isSome
                | [] => false
              else false
            let withoutOpt : Bool := (matchLit marker (r3.dropWhile wsB)).isSome
            if withOpt || withoutOpt then some (digitsToNat ds) else none
          else none
    else none

/-- `re.search(r':(\d+):(?:\d+:)?\s*MARKER', s)`. -/
def searchLineBeforeMarker (marker : PyStr) : PyStr → Option Nat
  | [] => none
  | c :: rest =>
    match lineMarkAt marker (c :: rest) with
    | some n => some n
    | none => searchLineBeforeMarker marker rest

/-- `r':\d+:\d+:'` anchored at the current position. -/
def colNumColonAt (s : PyStr) : Bool :=
  match s with
  | c :: r =>
    c = 58 &&
      (let ds := r.takeWhile isDigitChar
       let r2 := r.dropWhile isDigitChar
       ds ≠ [] &&
         match r2 with
         | c2 :: r3 =>
           c2 = 58 &&
             (let ds2 := r3.takeWhile isDigitChar
              let r4 := r3.dropWhile isDigitChar
              ds2 ≠ [] && match r4 with | c3 :: _ => c3 = 58 | [] => false)
         | [] => false)
  | [] => false

/-- `re.search(r':\d+:\d+:', s)` is not `None`. -/
def hasColNumColon : PyStr → Bool
  | [] => false
  | c :: rest => colNumColonAt (c :: rest) || hasColNumColon rest

/-- `r':\d+:\d+:\s*(.+)'` anchored at the current position. -/
def msgAfterColNumAt (s : PyStr) : Option PyStr :=
  match s with
  | [] => none
  | c :: r =>
    if c = 58 then
      let ds := r.takeWhile isDigitChar
      let r2 := r.dropWhile isDigitChar
      if ds = [] then none
      else
        match r2 with
        | [] => none
        | c2 :: r3 =>
          if c2 = 58 then
            let ds2 := r3.takeWhile isDigitChar
            let r4 := r3.dropWhile isDigitChar
            if ds2 = [] then none
            else
              match r4 with
              | c3 :: r5 => if c3 = 58 then afterWsDotPlus r5 else none
              | [] => none
          else none
    else none

/-- `re.search(r':\d+:\d+:\s*(.+)', s)`. -/
def searchMsgAfterColNum : PyStr → Option PyStr
  | [] => none
  | c :: rest =>
    match msgAfterColNumAt (c :: rest) with
    | some g => some g
    | none => searchMsgAfterColNum rest

/-- `re.search(LIT ++ r'(\d+)', s)`: first occurrence of the literal followed
by at least one digit; the captured digits (used for `r'\.go:(\d+)'`). -/
def searchNumAfterLit (lit : PyStr) : PyStr → Option Nat
  | [] => none
  | c :: rest =>
    match matchLit lit (c :: rest) with
    | some r =>
      let ds := r.takeWhile isDigitChar
      if ds = [] then searchNumAfterLit lit rest
      else some (digitsToNat ds)
    | none => searchNumAfterLit lit rest

/-! ## Error classifiers (`parse_error_output`) -/

/-- `BaseExecutor.parse_error_output`. -/
def parse_error_base (stderr : PyStr) (stdout : PyStr) : Option ExecutionError :=
  if pyStrip stderr = [] ∧ pyStrip stdout = [] then none
  else
    some { type := str2l "runtime_error"
           message := if pyStrip stderr ≠ [] then pyStrip stderr else pyStrip stdout
           line := none
           details := some (pyStrip (stderr ++ stdout)) }

/-- The Python error-name table of `PythonExecutor.parse_error_output`:
each regex `r'(XxxError): (.+)'` is the literal `"XxxError: "` followed by a
captured rest-of-line. -/
def pyErrorTable : List (PyStr × PyStr) :=
  [(str2l "SyntaxError: ", str2l "syntax_error"),
   (str2l "NameError: ", str2l "name_error"),
   (str2l "TypeError: ", str2l "type_error"),
   (str2l "ValueError: ", str2l "value_error"),
   (str2l "IndexError: ", str2l "index_error"),
   (str2l "KeyError: ", str2l "key_error"),
   (str2l "AttributeError: ", str2l "attribute_error"),
   (str2l "ImportError: ", str2l "import_error"),
   (str2l "ModuleNotFoundError: ", str2l "module_not_found_error"),
   (str2l "IndentationError: ", str2l "indentation_error"),
   (str2l "ZeroDivisionError: ", str2l "zero_division_error"),
   (str2l "FileNotFoundError: ", str2l "file_not_found_error"),
   (str2l "PermissionError: ", str2l "permission_error"),
   (str2l "RecursionError: ", str2l "recursion_error"),
   (str2l "MemoryError: ", str2l "memory_error"),
   (str2l "KeyboardInterrupt: ", str2l "keyboard_interrupt")]

/-- `PythonExecutor.parse_error_output`. -/
def parse_error_python (stderr : PyStr) (stdout : PyStr) : Option ExecutionError :=
  if pyStrip stderr = [] ∧ pyStrip stdout = [] then none
  else
    let errorText := if pyStrip stderr ≠ [] then pyStrip stderr else pyStrip stdout
    let lineNumber : Option Int := (searchTB errorText).map (fun n => (n : Int))
    match pyErrorTable.findSome?
        (fun p => (searchLitDotPlus p.1 errorText).map (fun g => (p.2, pyStrip g))) with
    | some (ty, msg) =>
      some { type := ty, message := msg, line := lineNumber, details := some errorText }
    | none =>
      let msg :=
        match (splitNL errorText).reverse.findSome? (fun l =>
            let t := pyStrip l
            if t ≠ [] ∧ ¬ startsWith (str2l "File ") t = true ∧
                ¬ startsWith (str2l "Traceback") t = true then some t else none) with
        | some m => m
        | none => errorText
      some { type := str2l "runtime_error", message := msg, line := lineNumber
             details := some errorText }

/-- `CExecutor.parse_error_output`. -/
def parse_error_c (stderr : PyStr) (stdout : PyStr) : Option ExecutionError :=
  if pyStrip stderr = [] ∧ pyStrip stdout = [] then none
  else
    let errorText := if pyStrip stderr ≠ [] then pyStrip stderr else pyStrip stdout
    let lower := pyLower errorText
    if containsSub (str2l "error:") lower then
      some { type := str2l "compilation_error"
             message :=
               match searchMarkerWsDotPlus (str2l "error:") errorText with
               | some g => pyStrip g
               | none => errorText
             line := (searchLineBeforeMarker (str2l "error:") errorText).map
               (fun n => (n : Int))
             details := some errorText }
    else if containsSub (str2l "warning:") lower then
      some { type := str2l "compilation_warning"
             message :=
               match searchMarkerWsDotPlus (str2l "warning:") errorText with
               | some g => pyStrip g
               | none => errorText
             line := (searchLineBeforeMarker (str2l "warning:") errorText).map
               (fun n => (n : Int))
             details := some errorText }
    else if containsSub (str2l "undefined reference") lower then
      some { type := str2l "linker_error"
             message := str2l "Undefined reference - missing function or library"
             line := none, details := some errorText }
    else if containsSub (str2l "segmentation fault") lower ||
        containsSub (str2l "segfault") lower ||
        containsSub (str2l "core dumped") lower ||
        containsSub (str2l "aborted") lower then
      some { type := str2l "runtime_error"
             message :=
               if containsSub (str2l "segmentation fault") lower then
                 str2l "Segmentation fault - invalid memory access"
               else if containsSub (str2l "aborted") lower then
                 str2l "Program aborted - assertion failed or abort() called"
               else errorText
             line := none, details := some errorText }
    else
      some { type := str2l "runtime_error", message := errorText, line := none
             details := some errorText }

/-- `GoExecutor.parse_error_output`. -/
def parse_error_go (stderr : PyStr) (stdout : PyStr) : Option ExecutionError :=
  if pyStrip stderr = [] ∧ pyStrip stdout = [] then none
  else
    let errorText := if pyStrip stderr ≠ [] then pyStrip stderr else pyStrip stdout
    if containsSub (str2l "syntax error:") (pyLower errorText) then
      some { type := str2l "syntax_error"
             message :=
               match searchMarkerWsDotPlus (str2l "syntax error:") errorText with
               | some g => pyStrip g
               | none => errorText
             line := (searchLineBeforeMarker (str2l "syntax error") errorText).map
               (fun n => (n : Int))
             details := some errorText }
    else if hasColNumColon errorText then
      some { type := str2l "compilation_error"
             message :=
               match searchMsgAfterColNum errorText with
               | some g => pyStrip g
               | none => errorText
             line := (searchLineBeforeMarker [] errorText).map (fun n => (n : Int))
             details := some errorText }
    else if containsSub (str2l "panic:") errorText then
      some { type := str2l "panic"
             message :=
               match searchMarkerWsDotPlus (str2l "panic:") errorText with
               | some g => pyStrip g
               | none => errorText
             line := (searchNumAfterLit (str2l ".go:") errorText).map (fun n => (n : Int))
             details := some errorText }
    else if containsSub (str2l "runtime error:") errorText then
      some { type := str2l "runtime_error"
             message :=
               match searchMarkerWsDotPlus (str2l "runtime error:") errorText with
               | some g => pyStrip g
               | none => errorText
             line := (searchNumAfterLit (str2l ".go:") errorText).map (fun n => (n : Int))
             details := some errorText }
    else
      some { type := str2l "runtime_error", message := errorText, line := none
             details := some errorText }

/-! ## Process runner (`BaseExecutor.execute_with_timeout`)

The subprocess's behaviour is an oracle value; the runner's observable OS
actions are returned as an event trace.  POSIX branch (`os.name != 'nt'`):
the child is spawned as a process-group leader (`preexec_fn=os.setsid`) and
signals go to the whole group via `os.killpg`. -/

inductive Event where
  | mkdir (path : PyStr)
  | fileWrite (path : PyStr)
  | spawn (cmd : List PyStr)
  | sigtermGroup
  | sigkillGroup
deriving Repr, DecidableEq

/-- What one spawned process does.  On the timeout path, `stdout`/`stderr`
are whatever partial output the final `communicate()` collects after the
kill; `termSignalRaises`/`killSignalRaises` model `os.killpg` raising
`ProcessLookupError`/`OSError`; `diesWithinGrace` models `process.wait(timeout=2)`
returning within the two-second grace window. -/
structure ProcOutcome where
  stdout : PyStr := []
  stderr : PyStr := []
  returncode : Int := 0
  completesInTime : Bool := true
  termSignalRaises : Bool := false
  diesWithinGrace : Bool := true
  killSignalRaises : Bool := false
deriving Repr, DecidableEq

/-- `subprocess.Popen` either raises or yields a process with an outcome. -/
inductive SpawnBehavior where
  | popenRaises (msg : PyStr)
  | runs (o : ProcOutcome)
deriving Repr, DecidableEq

/-- The synthetic notice appended to captured stderr on timeout. -/
def timeoutNotice (timeout : Nat) : PyStr :=
  str2l "\nExecution timed out after " ++ natStr timeout ++ str2l " seconds"

/-- `BaseExecutor.execute_with_timeout`: returns
`((stdout, stderr, returncode, timed_out), events)`. -/
def execute_with_timeout (timeout : Nat) (cmd : List PyStr) (b : SpawnBehavior) :
    (PyStr × PyStr × Int × Bool) × List Event :=
  match b with
  | .popenRaises msg => (([], str2l "Execution error: " ++ msg, 1, false), [])
  | .runs o =>
    if o.completesInTime then
      ((o.stdout, o.stderr, o.returncode, false), [.spawn cmd])
    else
      ((o.stdout, o.stderr ++ timeoutNotice timeout, o.returncode, true),
       [.spawn cmd, .sigtermGroup] ++
         (if !o.termSignalRaises && !o.diesWithinGrace then [.sigkillGroup] else []))

/-! ## Workspace lifecycle (`create_temp_file`, `cleanup_temp_files`) -/

/-- Executor instance state: the owned temp directory and created files. -/
structure ExecutorState where
  temp_dir : Option PyStr := none
  temp_files : List PyStr := []
deriving Repr, DecidableEq

/-- The file system, abstracted to the sets of live directories and files. -/
structure FS where
  dirs : List PyStr := []
  files : List PyStr := []
deriving Repr, DecidableEq

/-- Oracle for `create_temp_file`'s filesystem interactions: `mkdirResult`
models the `tempfile.mkdtemp` fallback chain (`/tmp`, default temp dir,
working directory) — it either yields the directory that some tier created,
or the exception the last tier raised; `writeRaises` models `open`/`write`
raising `OSError`/`PermissionError`. -/
structure WorkspaceBehavior where
  mkdirResult : Except PyStr PyStr
  writeRaises : Option PyStr := none

/-- `BaseExecutor.cleanup_temp_files`: removes each recorded temp file, then
the temp directory tree (skipped when `temp_dir` is falsy, i.e. `None` or
empty), and resets `temp_files := []`, `temp_dir := None`.  Removal failures
are logged and swallowed; removing an already-absent path is a no-op, so the
filesystem update is a filter. -/
def cleanup_temp_files (st : ExecutorState) (fs : FS) : ExecutorState × FS :=
  let files1 := fs.files.filter (fun f => !(st.temp_files.contains f))
  let dirs1 :=
    match st.temp_dir with
    | some d => if d ≠ [] then fs.dirs.filter (fun x => !(x = d)) else fs.dirs
    | none => fs.dirs
  (⟨none, []⟩, ⟨dirs1, files1⟩)

/-- `BaseExecutor.create_temp_file`: ensures the temp directory exists, then
writes `code` to `temp_dir/filename`.  On a write failure the exception
propagates and the path is not recorded in `temp_files` (the source appends
after the `try`), but the directory stays recorded for cleanup. -/
def create_temp_file (wb : WorkspaceBehavior) (_code : PyStr) (filename : PyStr)
    (st : ExecutorState) (fs : FS) :
    Except PyStr PyStr × ExecutorState × FS × List Event :=
  let dirStep : Except PyStr (PyStr × ExecutorState × FS × List Event) :=
    match st.temp_dir with
    | some d => .ok (d, st, fs, [])
    | none =>
      match wb.mkdirResult with
      | .error e => .error e
      | .ok d => .ok (d, { st with temp_dir := some d },
          { fs with dirs := d :: fs.dirs }, [.mkdir d])
  match dirStep with
  | .error e => (.error e, st, fs, [])
  | .ok (d, st1, fs1, ev1) =>
    let filePath := d ++ str2l "/" ++ filename
    match wb.writeRaises with
    | some e => (.error e, st1, fs1, ev1)
    | none =>
      (.ok filePath,
       { st1 with temp_files := st1.temp_files ++ [filePath] },
       { fs1 with files := filePath :: fs1.files },
       ev1 ++ [.fileWrite filePath])

/-! ## `BaseExecutor.execute` -/

/-- The language-specific pieces `BaseExecutor.execute` dispatches on. -/
structure BaseParams where
  timeout : Nat
  file_extension : PyStr
  getCommand : PyStr → List PyStr
  parseErr : PyStr → PyStr → Option ExecutionError

/-- Behaviour oracle for one `BaseExecutor.execute` call. -/
structure BaseBehavior where
  wb : WorkspaceBehavior
  runSB : SpawnBehavior

/-- The `security_error` result returned by the per-language screens. -/
def securityErrorResult (v : PyStr) : ExecutionResult :=
  { success := false
    error := some { type := str2l "security_error"
                    message := str2l "Code validation failed"
                    details := some v } }

/-- The `executor_error` result of the `except Exception` handler. -/
def executorErrorResult (e : PyStr) : ExecutionResult :=
  { success := false
    error := some { type := str2l "executor_error"
                    message := str2l "Internal executor error: " ++ e
                    details := some e } }

/-- The `timeout_error` result of the timeout branch. -/
def timeoutErrorResult (timeout : Nat) (stdout stderr : PyStr) : ExecutionResult :=
  { success := false, output := stdout
    error := some { type := str2l "timeout_error"
                    message := str2l "Code execution timed out after " ++
                      natStr timeout ++ str2l " seconds"
                    details := some stderr }
    timeout := true }

/-- `BaseExecutor.execute`: create the code file, run it with timeout,
classify, and always clean up (`finally`). -/
def BaseExecutor.execute (p : BaseParams) (code : PyStr) (_inputData : Option PyStr)
    (b : BaseBehavior) (st : ExecutorState) (fs : FS) :
    ExecutionResult × ExecutorState × FS × List Event :=
  let filename := str2l "code" ++ p.file_extension
  match create_temp_file b.wb code filename st fs with
  | (.error e, st1, fs1, ev1) =>
    let (st2, fs2) := cleanup_temp_files st1 fs1
    (executorErrorResult e, st2, fs2, ev1)
  | (.ok filePath, st1, fs1, ev1) =>
    let cmd := p.getCommand filePath
    let ((stdout, stderr, rc, timedOut), ev2) := execute_with_timeout p.timeout cmd b.runSB
    let res : ExecutionResult :=
      if timedOut then timeoutErrorResult p.timeout stdout stderr
      else if rc ≠ 0 ∨ pyStrip stderr ≠ [] then
        { success := false, output := stdout, error := p.parseErr stderr stdout }
      else { success := true, output := stdout }
    let (st2, fs2) := cleanup_temp_files st1 fs1
    (res, st2, fs2, ev1 ++ ev2)

/-! ## Python executor (`PythonExecutor.execute`) -/

/-- `PythonExecutor`'s extension, command and classifier. -/
def pythonParams (timeout : Nat) : BaseParams :=
  { timeout := timeout
    file_extension := str2l ".py"
    getCommand := fun fp => [str2l "python", str2l "-u", fp]
    parseErr := parse_error_python }

/-- `PythonExecutor.execute`: the security screen runs before the base
implementation (and, being outside the base `try/finally`, a rejection
returns without touching the workspace at all). -/
def PythonExecutor.execute (timeout : Nat) (code : PyStr) (inputData : Option PyStr)
    (b : BaseBehavior) (st : ExecutorState) (fs : FS) :
    ExecutionResult × ExecutorState × FS × List Event :=
  match validate_python_code code inputData.isSome with
  | some v => (securityErrorResult v, st, fs, [])
  | none => BaseExecutor.execute (pythonParams timeout) code inputData b st fs

/-! ## C executor (`CExecutor`) -/

/-- `CExecutor.validate_c_code` dangerous call patterns. -/
def cDangerousPatterns : List (List PatTok × PyStr) :=
  [([.bnd] ++ lits "system" ++ [.wsStar, .lit 40], str2l "\\bsystem\\s*\\("),
   ([.bnd] ++ lits "exec" ++ [.wordStar, .wsStar, .lit 40], str2l "\\bexec\\w*\\s*\\("),
   ([.bnd] ++ lits "popen" ++ [.wsStar, .lit 40], str2l "\\bpopen\\s*\\("),
   ([.bnd] ++ lits "fork" ++ [.wsStar, .lit 40], str2l "\\bfork\\s*\\("),
   ([.bnd] ++ lits "vfork" ++ [.wsStar, .lit 40], str2l "\\bvfork\\s*\\("),
   ([.bnd] ++ lits "clone" ++ [.wsStar, .lit 40], str2l "\\bclone\\s*\\("),
   ([.bnd] ++ lits "_exit" ++ [.wsStar, .lit 40], str2l "\\b_exit\\s*\\("),
   ([.bnd] ++ lits "exit" ++ [.wsStar, .lit 40], str2l "\\bexit\\s*\\("),
   ([.bnd] ++ lits "abort" ++ [.wsStar, .lit 40], str2l "\\babort\\s*\\("),
   ([.bnd] ++ lits "atexit" ++ [.wsStar, .lit 40], str2l "\\batexit\\s*\\("),
   ([.bnd] ++ lits "signal" ++ [.wsStar, .lit 40], str2l "\\bsignal\\s*\\("),
   ([.bnd] ++ lits "kill" ++ [.wsStar, .lit 40], str2l "\\bkill\\s*\\("),
   ([.bnd] ++ lits "raise" ++ [.wsStar, .lit 40], str2l "\\braise\\s*\\("),
   ([.bnd] ++ lits "setjmp" ++ [.wsStar, .lit 40], str2l "\\bsetjmp\\s*\\("),
   ([.bnd] ++ lits "longjmp" ++ [.wsStar, .lit 40], str2l "\\blongjmp\\s*\\("),
   ([.bnd] ++ lits "gets" ++ [.wsStar, .lit 40], str2l "\\bgets\\s*\\(")]

/-- `CExecutor.validate_c_code` dangerous includes. -/
def cDangerousIncludes : List (List PatTok × PyStr) :=
  [(lits "#include" ++ [.wsStar] ++ lits "<unistd.h>",
    str2l "#include\\s*<unistd\\.h>"),
   (lits "#include" ++ [.wsStar] ++ lits "<sys/", str2l "#include\\s*<sys/"),
   (lits "#include" ++ [.wsStar] ++ lits "<signal.h>",
    str2l "#include\\s*<signal\\.h>"),
   (lits "#include" ++ [.wsStar] ++ lits "<setjmp.h>",
    str2l "#include\\s*<setjmp\\.h>"),
   (lits "#include" ++ [.wsStar] ++ lits "<process.h>",
    str2l "#include\\s*<process\\.h>"),
   (lits "#include" ++ [.wsStar] ++ lits "<windows.h>",
    str2l "#include\\s*<windows\\.h>")]

/-- `CExecutor.validate_c_code`. -/
def validate_c_code (code : PyStr) : Option PyStr :=
  match cDangerousPatterns.find? (fun p => reSearch true p.1 code) with
  | some p => some (str2l "Code contains potentially unsafe operation: " ++ p.2)
  | none =>
    match cDangerousIncludes.find? (fun p => reSearch true p.1 code) with
    | some p => some (str2l "Code contains potentially unsafe include: " ++ p.2)
    | none => none

/-- `indent_code` (shared verbatim by the C and Go executors): indent each
line whose stripped form is nonempty. -/
def indent_code (code : PyStr) (spaces : Nat) : PyStr :=
  List.intercalate [10] ((splitNL code).map (fun l =>
    if pyStrip l ≠ [] then List.replicate spaces 32 ++ l else l))

/-- `CExecutor.wrap_code_if_needed`. -/
def c_wrap_code_if_needed (code : PyStr) : PyStr :=
  if reSearch false ([.bnd] ++ lits "int" ++ [.wsPlus] ++ lits "main" ++
        [.wsStar, .lit 40]) code ||
      reSearch false ([.bnd] ++ lits "main" ++ [.wsStar, .lit 40]) code then
    code
  else
    let includes :=
      if reSearch false (lits "#include" ++ [.wsStar, .lit 60]) code then ([] : PyStr)
      else str2l "#include <stdio.h>\n\n"
    includes ++ str2l "int main() \x7b\n" ++ indent_code code 4 ++
      str2l "\n    return 0;\n\x7d\n"

/-- The compilers probed by `CExecutor.check_compiler_availability`, in order. -/
inductive CCompiler where
  | gcc
  | clang
  | cl
deriving Repr, DecidableEq

/-- The `--version`-style probe command for a compiler. -/
def probeCmd : CCompiler → List PyStr
  | .gcc => [str2l "gcc", str2l "--version"]
  | .clang => [str2l "clang", str2l "--version"]
  | .cl => [str2l "cl", str2l "/help"]

/-- Behaviour oracle for one `CExecutor.execute` call.  `foundCompiler` is
the result of the availability probe (`none`: every candidate raised
`FileNotFoundError` or timed out, so no usable compiler; absent binaries
raise at `Popen`, spawning nothing, so only the found compiler's probe
appears in the trace). -/
structure CBehavior where
  foundCompiler : Option CCompiler
  wb : WorkspaceBehavior
  compileSB : SpawnBehavior
  runSB : SpawnBehavior

/-- `CExecutor.compile_c`: probe for a compiler, then run the compile
command; `success` is `returncode == 0 and not timed_out`. -/
def compile_c (timeout : Nat) (cb : CBehavior) (tempDir filePath : PyStr) :
    (Bool × PyStr × PyStr) × List Event :=
  match cb.foundCompiler with
  | none =>
    ((false, [],
      str2l "C compiler not found. Please install gcc, clang, or Visual Studio Build Tools."),
     [])
  | some comp =>
    let executablePath := tempDir ++ str2l "/program"
    let compileCmd : List PyStr :=
      match comp with
      | .cl => [str2l "cl", str2l "/TC", str2l "/Fe:" ++ executablePath, filePath]
      | .gcc => [str2l "gcc", str2l "-std=c11", str2l "-Wall", str2l "-o",
          executablePath, filePath]
      | .clang => [str2l "clang", str2l "-std=c11", str2l "-Wall", str2l "-o",
          executablePath, filePath]
    let ((stdout, stderr, rc, timedOut), ev) :=
      execute_with_timeout timeout compileCmd cb.compileSB
    ((rc = 0 && !timedOut, stdout, stderr), [.spawn (probeCmd comp)] ++ ev)

/-- `CExecutor.run_c`: run the produced executable. -/
def run_c (timeout : Nat) (cb : CBehavior) (tempDir : PyStr) :
    (PyStr × PyStr × Int × Bool) × List Event :=
  execute_with_timeout timeout [tempDir ++ str2l "/program"] cb.runSB

/-- `CExecutor.execute`: screen, wrap, materialize, compile, and run only on
compile success; every path ends in `cleanup_temp_files` (`finally`). -/
def CExecutor.execute (timeout : Nat) (code : PyStr) (_inputData : Option PyStr)
    (cb : CBehavior) (st : ExecutorState) (fs : FS) :
    ExecutionResult × ExecutorState × FS × List Event :=
  match validate_c_code code with
  | some v =>
    let (st1, fs1) := cleanup_temp_files st fs
    (securityErrorResult v, st1, fs1, [])
  | none =>
    let wrapped := c_wrap_code_if_needed code
    match create_temp_file cb.wb wrapped (str2l "program.c") st fs with
    | (.error e, st1, fs1, ev1) =>
      let (st2, fs2) := cleanup_temp_files st1 fs1
      (executorErrorResult e, st2, fs2, ev1)
    | (.ok filePath, st1, fs1, ev1) =>
      let tempDir := st1.temp_dir.getD []
      let ((compileOK, compileStdout, compileStderr), ev2) :=
        compile_c timeout cb tempDir filePath
      if !compileOK then
        let (st2, fs2) := cleanup_temp_files st1 fs1
        ({ success := false, output := compileStdout
           error := parse_error_c compileStderr compileStdout }, st2, fs2, ev1 ++ ev2)
      else
        let ((stdout, stderr, rc, timedOut), ev3) := run_c timeout cb tempDir
        let res : ExecutionResult :=
          if timedOut then timeoutErrorResult timeout stdout stderr
          else if rc ≠ 0 ∨ pyStrip stderr ≠ [] then
            { success := false, output := stdout, error := parse_error_c stderr stdout }
          else { success := true, output := stdout }
        let (st2, fs2) := cleanup_temp_files st1 fs1
        (res, st2, fs2, ev1 ++ ev2 ++ ev3)

/-! ## Go executor (`GoExecutor`) -/

/-- `GoExecutor.validate_go_code` dangerous call patterns. -/
def goDangerousPatterns : List (List PatTok × PyStr) :=
  [([.bnd] ++ lits "os.Exec" ++ [.wsStar, .lit 40], str2l "\\bos\\.Exec\\s*\\("),
   ([.bnd] ++ lits "exec.Command" ++ [.wsStar, .lit 40], str2l "\\bexec\\.Command\\s*\\("),
   ([.bnd] ++ lits "exec.CommandContext" ++ [.wsStar, .lit 40],
    str2l "\\bexec\\.CommandContext\\s*\\("),
   ([.bnd] ++ lits "os.Exit" ++ [.wsStar, .lit 40], str2l "\\bos\\.Exit\\s*\\("),
   ([.bnd] ++ lits "os.Remove" ++ [.wsStar, .lit 40], str2l "\\bos\\.Remove\\s*\\("),
   ([.bnd] ++ lits "os.RemoveAll" ++ [.wsStar, .lit 40], str2l "\\bos\\.RemoveAll\\s*\\("),
   ([.bnd] ++ lits "os.Rename" ++ [.wsStar, .lit 40], str2l "\\bos\\.Rename\\s*\\("),
   ([.bnd] ++ lits "os.Mkdir" ++ [.wsStar, .lit 40], str2l "\\bos\\.Mkdir\\s*\\("),
   ([.bnd] ++ lits "os.MkdirAll" ++ [.wsStar, .lit 40], str2l "\\bos\\.MkdirAll\\s*\\("),
   ([.bnd] ++ lits "os.Chmod" ++ [.wsStar, .lit 40], str2l "\\bos\\.Chmod\\s*\\("),
   ([.bnd] ++ lits "os.Chown" ++ [.wsStar, .lit 40], str2l "\\bos\\.Chown\\s*\\("),
   ([.bnd] ++ lits "os.Chdir" ++ [.wsStar, .lit 40], str2l "\\bos\\.Chdir\\s*\\("),
   ([.bnd] ++ lits "os.Setenv" ++ [.wsStar, .lit 40], str2l "\\bos\\.Setenv\\s*\\("),
   ([.bnd] ++ lits "os.Unsetenv" ++ [.wsStar, .lit 40], str2l "\\bos\\.Unsetenv\\s*\\("),
   ([.bnd] ++ lits "ioutil.WriteFile" ++ [.wsStar, .lit 40],
    str2l "\\bioutil\\.WriteFile\\s*\\("),
   ([.bnd] ++ lits "os.OpenFile" ++ [.wsStar, .lit 40], str2l "\\bos\\.OpenFile\\s*\\("),
   ([.bnd] ++ lits "os.Create" ++ [.wsStar, .lit 40], str2l "\\bos\\.Create\\s*\\("),
   ([.bnd] ++ lits "net.Dial" ++ [.wsStar, .lit 40], str2l "\\bnet\\.Dial\\s*\\("),
   ([.bnd] ++ lits "net.Listen" ++ [.wsStar, .lit 40], str2l "\\bnet\\.Listen\\s*\\("),
   ([.bnd] ++ lits "http.Get" ++ [.wsStar, .lit 40], str2l "\\bhttp\\.Get\\s*\\("),
   ([.bnd] ++ lits "http.Post" ++ [.wsStar, .lit 40], str2l "\\bhttp\\.Post\\s*\\("),
   ([.bnd] ++ lits "http.ListenAndServe" ++ [.wsStar, .lit 40],
    str2l "\\bhttp\\.ListenAndServe\\s*\\("),
   ([.bnd] ++ lits "unsafe.", str2l "\\bunsafe\\."),
   ([.bnd] ++ lits "reflect.", str2l "\\breflect\\."),
   ([.bnd] ++ lits "syscall.", str2l "\\bsyscall\\."),
   ([.bnd] ++ lits "plugin.", str2l "\\bplugin\\."),
   ([.bnd] ++ lits "debug.", str2l "\\bdebug\\."),
   ([.bnd] ++ lits "runtime.", str2l "\\bruntime\\.")]

/-- `GoExecutor.validate_go_code` dangerous imports. -/
def goDangerousImports : List (List PatTok × PyStr) :=
  [(lits "import" ++ [.wsPlus] ++ lits "\"os/exec\"", str2l "import\\s+\"os/exec\""),
   (lits "import" ++ [.wsPlus] ++ lits "\"syscall\"", str2l "import\\s+\"syscall\""),
   (lits "import" ++ [.wsPlus] ++ lits "\"unsafe\"", str2l "import\\s+\"unsafe\""),
   (lits "import" ++ [.wsPlus] ++ lits "\"plugin\"", str2l "import\\s+\"plugin\""),
   (lits "import" ++ [.wsPlus] ++ lits "\"net\"", str2l "import\\s+\"net\""),
   (lits "import" ++ [.wsPlus] ++ lits "\"net/http\"", str2l "import\\s+\"net/http\""),
   (lits "import" ++ [.wsPlus] ++ lits "\"io/ioutil\"", str2l "import\\s+\"io/ioutil\""),
   (lits "import" ++ [.wsPlus] ++ lits "\"os\"", str2l "import\\s+\"os\""),
   (lits "import" ++ [.wsPlus] ++ lits "\"reflect\"", str2l "import\\s+\"reflect\""),
   (lits "import" ++ [.wsPlus] ++ lits "\"runtime\"", str2l "import\\s+\"runtime\""),
   (lits "import" ++ [.wsPlus] ++ lits "\"debug\"", str2l "import\\s+\"debug\"")]

/-- `GoExecutor.validate_go_code`. -/
def validate_go_code (code : PyStr) : Option PyStr :=
  match goDangerousPatterns.find? (fun p => reSearch true p.1 code) with
  | some p => some (str2l "Code contains potentially unsafe operation: " ++ p.2)
  | none =>
    match goDangerousImports.find? (fun p => reSearch true p.1 code) with
    | some p => some (str2l "Code contains potentially unsafe import: " ++ p.2)
    | none => none

/-- A position at the start of a line (`re.MULTILINE` `^`). -/
def lineStartB (prev : Option Nat) : Bool :=
  match prev with
  | none => true
  | some c => c = 10

/-- Search for a token pattern anchored at some line start
(`re.search` with `re.MULTILINE` and a leading `^`). -/
def searchLineStart (toks : List PatTok) : Option Nat → PyStr → Bool
  | prev, [] => lineStartB prev && (matchToks false toks prev []).isSome
  | prev, c :: rest =>
    (lineStartB prev && (matchToks false toks prev (c :: rest)).isSome) ||
      searchLineStart toks (some c) rest

/-- `GoExecutor.wrap_code_if_needed`. -/
def go_wrap_code_if_needed (code : PyStr) : PyStr :=
  if reSearch false ([.bnd] ++ lits "func" ++ [.wsPlus] ++ lits "main" ++
      [.wsStar, .lit 40, .wsStar, .lit 41]) code then
    code
  else
    let hasPackage :=
      searchLineStart ([.wsStar] ++ lits "package" ++ [.wsPlus, .wordPlus]) none code
    let packageAndImports : PyStr :=
      if hasPackage then []
      else
        str2l "package main\n\n" ++
          (if containsSub (str2l "fmt.") code || containsSub (str2l "Println") code ||
              containsSub (str2l "Printf") code || containsSub (str2l "Print") code then
            str2l "import \"fmt\"\n\n"
          else [])
    packageAndImports ++ str2l "func main() \x7b\n" ++ indent_code code 4 ++
      str2l "\n\x7d\n"

/-- Behaviour oracle for one `GoExecutor.execute` call.  `goAvailable` is the
result of the `go version` probe; when the `go` binary is absent,
`subprocess.run` raises `FileNotFoundError` at `Popen` and nothing is
spawned, so the probe appears in the trace only when it succeeds.
`goMkdir` models the direct `tempfile.mkdtemp` call; `homeCacheOK` selects
whether the `/home/appuser` cache directories could be created or the
workspace-local fallback was used (the fallback is assumed to succeed). -/
structure GoBehavior where
  goAvailable : Bool
  goMkdir : Except PyStr PyStr
  homeCacheOK : Bool := true
  wb : WorkspaceBehavior
  runSB : SpawnBehavior

/-- `GoExecutor.execute`: probe the toolchain, set up cache directories and
the workspace, then screen, wrap, materialize and run `go run`; every path
ends in `cleanup_temp_files` (`finally`). -/
def GoExecutor.execute (timeout : Nat) (code : PyStr) (_inputData : Option PyStr)
    (gb : GoBehavior) (st : ExecutorState) (fs : FS) :
    ExecutionResult × ExecutorState × FS × List Event :=
  if !gb.goAvailable then
    let (st1, fs1) := cleanup_temp_files st fs
    ({ success := false
       error := some { type := str2l "runtime_error"
                       message := str2l "Go compiler not found. Please install Go."
                       details := some (str2l "Go compiler is required to execute Go code.") } },
     st1, fs1, [])
  else
    let ev0 : List Event := [.spawn [str2l "go", str2l "version"]]
    let dirStep : Except PyStr (ExecutorState × FS × List Event) :=
      match st.temp_dir with
      | some _ => .ok (st, fs, ev0)
      | none =>
        match gb.goMkdir with
        | .error e => .error e
        | .ok d => .ok ({ st with temp_dir := some d },
            { fs with dirs := d :: fs.dirs }, ev0 ++ [.mkdir d])
    match dirStep with
    | .error e =>
      let (st1, fs1) := cleanup_temp_files st fs
      (executorErrorResult e, st1, fs1, ev0)
    | .ok (st1, fs1, ev1) =>
      let tempDir := st1.temp_dir.getD []
      let cacheDir :=
        if gb.homeCacheOK then str2l "/home/appuser/.cache/go-build"
        else tempDir ++ str2l "/go-cache"
      let gopathDir :=
        if gb.homeCacheOK then str2l "/home/appuser/.local/go"
        else tempDir ++ str2l "/go-path"
      let ev2 := ev1 ++ [.mkdir cacheDir, .mkdir gopathDir]
      let fs2 := { fs1 with dirs := gopathDir :: cacheDir :: fs1.dirs }
      match validate_go_code code with
      | some v =>
        let (st3, fs3) := cleanup_temp_files st1 fs2
        (securityErrorResult v, st3, fs3, ev2)
      | none =>
        let wrapped := go_wrap_code_if_needed code
        match create_temp_file gb.wb wrapped (str2l "main.go") st1 fs2 with
        | (.error e, st3, fs3, ev3) =>
          let (st4, fs4) := cleanup_temp_files st3 fs3
          (executorErrorResult e, st4, fs4, ev2 ++ ev3)
        | (.ok filePath, st3, fs3, ev3) =>
          let cmd := [str2l "go", str2l "run", filePath]
          let ((stdout, stderr, rc, timedOut), ev4) :=
            execute_with_timeout timeout cmd gb.runSB
          let res : ExecutionResult :=
            if timedOut then timeoutErrorResult timeout stdout stderr
            else if rc ≠ 0 ∨ pyStrip stderr ≠ [] then
              { success := false, output := stdout, error := parse_error_go stderr stdout }
            else { success := true, output := stdout }
          let (st4, fs4) := cleanup_temp_files st3 fs3
          (res, st4, fs4, ev2 ++ ev3 ++ ev4)

/-! ## Execution service (`app/services/execution_service.py`) -/

/-- The executor modules imported by `_load_language_executors`, in import
order, each tagged with whether the module exists in the source tree.
`app.executors.cpp_executor` is imported but no `cpp_executor.py` file exists
under `app/executors/`, so that import raises `ImportError`. -/
def executorImportModules : List (PyStr × Bool) :=
  [(str2l "app.executors.python_executor", true),
   (str2l "app.executors.javascript_executor", true),
   (str2l "app.executors.java_executor", true),
   (str2l "app.executors.cpp_executor", false),
   (str2l "app.executors.c_executor", true),
   (str2l "app.executors.csharp_executor", true),
   (str2l "app.executors.php_executor", true),
   (str2l "app.executors.ruby_executor", true),
   (str2l "app.executors.go_executor", true),
   (str2l "app.executors.rust_executor", true),
   (str2l "app.executors.r_executor", true),
   (str2l "app.executors.typescript_executor", true)]

/-- `ExecutionService._load_language_executors`: the `self.executors` keys.
All imports sit in one `try` block before any registration, so the first
failing import aborts the block (the `except` only logs) and leaves the
registry empty. -/
def loadedExecutors : List PyStr :=
  if executorImportModules.all (fun m => m.2) then
    [str2l "python", str2l "javascript", str2l "java", str2l "cpp", str2l "c",
     str2l "csharp", str2l "php", str2l "ruby", str2l "go", str2l "rust",
     str2l "r", str2l "typescript"]
  else []

/-- `create_error_result`. -/
def create_error_result (ty msg : PyStr) (details : Option PyStr) : ExecutionResult :=
  { success := false, error := some { type := ty, message := msg, details := details } }

/-- Behaviour oracle for `execute_code`'s interaction with the chosen
executor: constructing `executor_class(timeout=...)` happens outside the
inner `try` (a raise there reaches the outer `except` → `service_error`),
while `executor.execute(...)` raising is caught by the inner `except` →
`executor_error`. -/
structure ServiceBehavior where
  ctorRaises : Option PyStr := none
  executorOutcome : Except PyStr ExecutionResult := .ok { success := true }

/-- `ExecutionService.execute_code`, parametric in the registry keys
(`self.executors`; in the running program `loadedExecutors`). -/
def ExecutionService.execute_code (registry : List PyStr) (sb : ServiceBehavior)
    (req : ExecutionRequest) : ExecutionResult :=
  if !req.validOK then
    create_error_result (str2l "validation_error") (str2l "Invalid execution request")
      (some (List.intercalate (str2l "; ") req.validationErrors))
  else
    let s := req.sanitize
    match get_language_by_id s.language with
    | none =>
      create_error_result (str2l "unsupported_language")
        (str2l "Language \"" ++ s.language ++ str2l "\" is not supported") none
    | some lang =>
      if !registry.contains s.language then
        create_error_result (str2l "executor_not_available")
          (str2l "Code execution not yet implemented for " ++ lang.name)
          (some (str2l "Executor for " ++ s.language ++ str2l " is not available"))
      else
        match sb.ctorRaises with
        | some msg =>
          { success := false
            error := some { type := str2l "service_error"
                            message := str2l "Internal execution service error"
                            details := some msg } }
        | none =>
          match sb.executorOutcome with
          | .error msg =>
            { success := false
              error := some { type := str2l "executor_error"
                              message := str2l "Error executing " ++ lang.name ++ str2l " code"
                              details := some msg } }
          | .ok r => r

/-! ## Spec-side predicates and claim statements

`langMatchesSpec` follows the specification's words (a full anchored match of
`^[a-zA-Z][a-zA-Z0-9_]*$` in its standard reading: every character of the
string belongs to the class); it is compared against the code's
`langPatternPyMatch`, which has CPython's `$`-before-trailing-newline
semantics. -/

/-- The language pattern read as a plain full match (spec wording). -/
def langMatchesSpec (s : PyStr) : Bool :=
  match s with
  | [] => false
  | c :: rest => isAlphaChar c && rest.all isWordChar

/-- Claim C6 as stated: `validate` succeeds exactly on requests whose
language fully matches the pattern, whose code is non-empty after stripping
and at most 50,000 characters, whose input (when present) is at most 10,000
characters, and whose timeout (when present) lies in `[1, 60]`. -/
def C6_claim : Prop :=
  ∀ r : ExecutionRequest,
    r.validOK = true ↔
      (langMatchesSpec r.language = true ∧ pyStrip r.code ≠ [] ∧
        r.code.length ≤ 50000 ∧
        (∀ i, r.input = some i → i.length ≤ 10000) ∧
        (∀ t, r.timeout = some t → 1 ≤ t ∧ t ≤ 60))

/-- The commands spawned in a trace. -/
def spawnedCmds (tr : List Event) : List (List PyStr) :=
  tr.filterMap (fun e => match e with | .spawn c => some c | _ => none)

/-- The spawned commands other than the `go version` toolchain probe. -/
def goNonProbeSpawns (tr : List Event) : List (List PyStr) :=
  (spawnedCmds tr).filter (fun c => !(c = [str2l "go", str2l "version"]))

/-- Claim C2 as stated, for the Go executor: a request whose code matches a
deny-listed pattern is rejected with `security_error` before any file is
written to the workspace and before any subprocess is spawned. -/
def C2_claim_go : Prop :=
  ∀ (timeout : Nat) (code : PyStr) (inp : Option PyStr) (gb : GoBehavior)
    (st : ExecutorState) (fs : FS),
    validate_go_code code ≠ none →
    (∃ e, (GoExecutor.execute timeout code inp gb st fs).1.error = some e ∧
        e.type = str2l "security_error") ∧
      (GoExecutor.execute timeout code inp gb st fs).1.success = false ∧
      spawnedCmds (GoExecutor.execute timeout code inp gb st fs).2.2.2 = [] ∧
      (∀ pth, Event.fileWrite pth ∉ (GoExecutor.execute timeout code inp gb st fs).2.2.2)

/-- Claim C5 as stated, for the Go executor (listed among the compiled
languages): an execution that reaches the user's program is two chained
launches — a compile step and then a run step. -/
def C5_claim_go : Prop :=
  ∀ (timeout : Nat) (code : PyStr) (inp : Option PyStr) (gb : GoBehavior)
    (fs : FS) (d : PyStr),
    gb.goAvailable = true → gb.goMkdir = .ok d → gb.wb.writeRaises = none →
    validate_go_code code = none →
    (goNonProbeSpawns
      (GoExecutor.execute timeout code inp gb ⟨none, []⟩ fs).2.2.2).length = 2

/-- A trivially succeeding workspace oracle, for concrete instances. -/
def wbTriv : WorkspaceBehavior := ⟨.ok (str2l "/tmp/w_1"), none⟩

/-- A process outcome that completes normally, for concrete instances. -/
def procTriv : ProcOutcome := {}

/-- A process outcome that overruns the deadline, for concrete instances. -/
def procHung : ProcOutcome :=
  { stdout := str2l "partial", stderr := str2l "late", returncode := -15,
    completesInTime := false, termSignalRaises := false, diesWithinGrace := false,
    killSignalRaises := false }

/-- A process outcome that exits 0 but writes to stderr, for concrete
instances. -/
def procStderrOnly : ProcOutcome :=
  { stdout := str2l "out", stderr := str2l "warning text", returncode := 0 }

/-! # Theorems -/

theorem langPatternPyMatch_nil : langPatternPyMatch [] = false := by decide

theorem pyStrip_nil : pyStrip ([] : PyStr) = [] := by decide

/-- C6 as stated is false: `validate` accepts the language `"py\n"`
(CPython's `$` matches before a single trailing newline), which does not
fully match `^[a-zA-Z][a-zA-Z0-9_]*$` — the newline is outside the class. -/
theorem C6_counterexample : ¬ C6_claim := by
  intro h
  have hv := (h ⟨str2l "py\n", str2l "x", none, none⟩).mp (by decide)
  exact absurd hv.1 (by decide)

/-- C6 (amended): `validate()` returns `valid=true` iff the language matches
`^[a-zA-Z][a-zA-Z0-9_]*$` under CPython `re.match` semantics (which also
accepts a single trailing newline), the code is non-empty after stripping
whitespace and at most 50,000 characters, the input (when present) is at
most 10,000 characters, and the timeout (when present) is an integer in
`[1, 60]`. -/
theorem C6_validate_characterization (r : ExecutionRequest) :
    r.validOK = true ↔
      (langPatternPyMatch r.language = true ∧ pyStrip r.code ≠ [] ∧
        r.code.length ≤ 50000 ∧
        (∀ i, r.input = some i → i.length ≤ 10000) ∧
        (∀ t, r.timeout = some t → 1 ≤ t ∧ t ≤ 60)) := by
  obtain ⟨lang, code, inp, tmo⟩ := r
  simp only [ExecutionRequest.validOK, ExecutionRequest.validationErrors,
    List.length_append, Nat.add_eq_zero, List.length_eq_zero, decide_eq_true_eq]
  cases inp <;> cases tmo <;>
    split_ifs <;>
      simp_all [langPatternPyMatch_nil, pyStrip_nil, List.length_eq_zero] <;>
        omega

/-- C8: every embedded error classifier (base, Python, C, Go) is a total
function of the two streams — the embedding is a plain Lean function, so it
never raises — and it returns `None` exactly when both stderr and stdout are
empty or whitespace-only; otherwise it returns an `ExecutionError` (whose
`line` field is optional best-effort data). -/
theorem C8_classifier_none_iff (stderr stdout : PyStr) :
    (parse_error_base stderr stdout = none ↔
      pyStrip stderr = [] ∧ pyStrip stdout = []) ∧
    (parse_error_python stderr stdout = none ↔
      pyStrip stderr = [] ∧ pyStrip stdout = []) ∧
    (parse_error_c stderr stdout = none ↔
      pyStrip stderr = [] ∧ pyStrip stdout = []) ∧
    (parse_error_go stderr stdout = none ↔
      pyStrip stderr = [] ∧ pyStrip stdout = []) := by
  refine ⟨?_, ?_, ?_, ?_⟩
  · unfold parse_error_base
    split_ifs with h <;> simp [h]
  · constructor
    · intro hn
      by_contra hc
      unfold parse_error_python at hn
      rw [if_neg hc] at hn
      split at hn <;> (try dsimp only at hn) <;> split at hn <;> simp at hn
    · intro h
      unfold parse_error_python
      rw [if_pos h]
  · constructor
    · intro hn
      by_contra hc
      unfold parse_error_c at hn
      rw [if_neg hc] at hn
      dsimp only at hn
      split_ifs at hn <;> simp at hn
    · intro h
      unfold parse_error_c
      rw [if_pos h]
  · constructor
    · intro hn
      by_contra hc
      unfold parse_error_go at hn
      rw [if_neg hc] at hn
      dsimp only at hn
      split_ifs at hn <;> simp at hn
    · intro h
      unfold parse_error_go
      rw [if_pos h]

theorem mem_replaceCRLF {c : Nat} : ∀ {s : PyStr}, c ∈ replaceCRLF s → c ∈ s ∨ c = 10
  | [], h => by simp [replaceCRLF] at h
  | [a], h => by
    simp [replaceCRLF] at h
    simp [h]
  | a :: b :: rest, h => by
    rw [replaceCRLF] at h
    split_ifs at h with hab
    · rcases List.mem_cons.mp h with h10 | h'
      · exact Or.inr h10
      · rcases mem_replaceCRLF h' with hr | hr
        · exact Or.inl (by simp [hr])
        · exact Or.inr hr
    · rcases List.mem_cons.mp h with ha | h'
      · exact Or.inl (by simp [ha])
      · rcases mem_replaceCRLF h' with hr | hr
        · exact Or.inl (List.mem_cons_of_mem _ hr)
        · exact Or.inr hr

theorem replaceCRLF_eq_self : ∀ {s : PyStr}, 13 ∉ s → replaceCRLF s = s
  | [], _ => rfl
  | [a], _ => rfl
  | a :: b :: rest, h => by
    rw [replaceCRLF]
    have ha : a ≠ 13 := fun hc => h (by simp [hc])
    rw [if_neg (by simp [ha])]
    have : (13 : Nat) ∉ b :: rest := fun hc => h (List.mem_cons_of_mem _ hc)
    rw [replaceCRLF_eq_self this]

theorem zero_not_mem_sanitizeText (s : PyStr) : (0 : Nat) ∉ sanitizeText s := by
  intro h
  unfold sanitizeText replaceCR at h
  rcases List.mem_map.mp h with ⟨a, ha, hfa⟩
  have ha0 : a = 0 := by
    by_cases h13 : a = 13 <;> simp [h13] at hfa
    exact hfa
  subst ha0
  rcases mem_replaceCRLF ha with hm | hm
  · exact absurd (List.mem_filter.mp hm).2 (by simp)
  · simp at hm

theorem cr_not_mem_sanitizeText (s : PyStr) : (13 : Nat) ∉ sanitizeText s := by
  intro h
  unfold sanitizeText replaceCR at h
  rcases List.mem_map.mp h with ⟨a, _, hfa⟩
  by_cases h13 : a = 13 <;> simp [h13] at hfa

/-- The NUL-strip / newline-normalization pipeline is idempotent. -/
theorem sanitizeText_idem (s : PyStr) : sanitizeText (sanitizeText s) = sanitizeText s := by
  have h0 := zero_not_mem_sanitizeText s
  have h13 := cr_not_mem_sanitizeText s
  have hrm : removeNul (sanitizeText s) = sanitizeText s :=
    List.filter_eq_self.mpr (fun a ha => by
      simp only [Bool.not_eq_true']
      exact decide_eq_false (fun hc => h0 (hc ▸ ha)))
  conv_lhs => rw [sanitizeText, hrm, replaceCRLF_eq_self h13]
  rw [replaceCR]
  refine List.map_congr_left (fun a ha => ?_) |>.trans (List.map_id _)
  have : a ≠ 13 := fun hc => h13 (hc ▸ ha)
  simp [this]

theorem lowerChar_idem (c : Nat) : lowerChar (lowerChar c) = lowerChar c := by
  unfold lowerChar
  split_ifs <;> omega

theorem dropWhile_idem (p : Nat → Bool) (l : PyStr) :
    (l.dropWhile p).dropWhile p = l.dropWhile p := by
  induction l with
  | nil => rfl
  | cons a t ih =>
    by_cases h : p a <;> simp [List.dropWhile_cons, h, ih]

theorem dropWhile_head_false (p : Nat → Bool) :
    ∀ {l : PyStr} {a : Nat} {t : PyStr}, l.dropWhile p = a :: t → p a = false := by
  intro l
  induction l with
  | nil => intro a t h; simp at h
  | cons b r ih =>
    intro a t h
    rw [List.dropWhile_cons] at h
    split_ifs at h with hb
    · exact ih h
    · injection h with h1 h2
      subst h1
      simpa using hb

theorem pyStrip_dropWhile_left (l : PyStr) :
    (pyStrip l).dropWhile wsB = pyStrip l := by
  rcases hcase : l.dropWhile wsB with _ | ⟨a, t⟩
  · rw [pyStrip, hcase]
    simp
  · have hna := dropWhile_head_false wsB hcase
    rw [pyStrip, hcase]
    rw [show (a :: t).reverse = t.reverse ++ [a] by simp, List.dropWhile_append]
    split_ifs with he
    · simp [List.dropWhile_cons, hna]
    · rw [List.reverse_append]
      simp [List.dropWhile_cons, hna]

theorem pyStrip_dropWhile_right (l : PyStr) :
    (pyStrip l).reverse.dropWhile wsB = (pyStrip l).reverse := by
  rw [pyStrip, List.reverse_reverse]
  exact dropWhile_idem _ _

theorem pyStrip_idem (l : PyStr) : pyStrip (pyStrip l) = pyStrip l := by
  conv_lhs => rw [pyStrip, pyStrip_dropWhile_left, pyStrip_dropWhile_right]
  exact List.reverse_reverse _

theorem mem_pyStrip {a : Nat} {s : PyStr} (h : a ∈ pyStrip s) : a ∈ s := by
  rw [pyStrip, List.mem_reverse] at h
  have h1 : a ∈ (s.dropWhile wsB).reverse := (List.dropWhile_sublist _).subset h
  rw [List.mem_reverse] at h1
  exact (List.dropWhile_sublist _).subset h1

theorem pyLower_mem_lowered {c : Nat} {s : PyStr} (h : c ∈ pyLower s) :
    lowerChar c = c := by
  rcases List.mem_map.mp h with ⟨a, _, hfa⟩
  rw [← hfa]
  exact lowerChar_idem a

/-- C7: sanitization is idempotent: applying `sanitize` twice equals applying
it once in all four fields (NUL removal and CRLF/CR→LF normalization of code
and input are stable, lower-casing plus stripping of the language is stable,
and the timeout passes through unchanged). -/
theorem C7_sanitize_idempotent (r : ExecutionRequest) :
    r.sanitize.sanitize = r.sanitize := by
  unfold ExecutionRequest.sanitize
  simp only [ExecutionRequest.mk.injEq, and_true]
  refine ⟨?_, sanitizeText_idem _, ?_⟩
  · have hlow : pyLower (pyStrip (pyLower r.language)) = pyStrip (pyLower r.language) := by
      have hcongr : List.map lowerChar (pyStrip (pyLower r.language)) =
          List.map id (pyStrip (pyLower r.language)) :=
        List.map_congr_left (fun a ha => pyLower_mem_lowered (mem_pyStrip ha))
      rw [pyLower, hcongr, List.map_id]
    rw [hlow, pyStrip_idem]
  · rcases r.input with _ | i
    · rfl
    · simp [sanitizeText_idem]

/-- C9: because `app.executors.cpp_executor` is imported in the same `try`
block as every other executor but is absent from the source tree, the import
block aborts before any registration and no executors at all are registered;
consequently every valid request whose (sanitized) language is in the
catalog gets `success=false` with error type `executor_not_available`
instead of being executed. -/
theorem C9_no_executors_registered :
    loadedExecutors = [] ∧
      ∀ (req : ExecutionRequest) (sb : ServiceBehavior) (lang : Language),
        req.validOK = true →
        get_language_by_id req.sanitize.language = some lang →
        (ExecutionService.execute_code loadedExecutors sb req).success = false ∧
          ∃ e, (ExecutionService.execute_code loadedExecutors sb req).error = some e ∧
            e.type = str2l "executor_not_available" := by
  have hle : loadedExecutors = [] := by decide
  refine ⟨hle, fun req sb lang hv hlang => ?_⟩
  simp only [ExecutionService.execute_code, hle, hv, hlang, Bool.not_true,
    Bool.false_eq_true, if_false, create_error_result]
  simp

/-- Witness for C9: a concrete valid `python` request is answered with
`executor_not_available`. -/
theorem C9_witness :
    (ExecutionService.execute_code loadedExecutors
        ⟨none, .ok { success := true }⟩
        ⟨str2l "python", str2l "print(1)", none, none⟩).success = false ∧
      ∃ e, (ExecutionService.execute_code loadedExecutors
          ⟨none, .ok { success := true }⟩
          ⟨str2l "python", str2l "print(1)", none, none⟩).error = some e ∧
        e.type = str2l "executor_not_available" :=
  C9_no_executors_registered.2 ⟨str2l "python", str2l "print(1)", none, none⟩
    ⟨none, .ok { success := true }⟩
    ⟨str2l "python", str2l "Python", str2l ".py", true, 30⟩ (by decide) (by decide)

/-- C4: `execute_code` is a total function into `ExecutionResult` — the
embedding of its outer `except Exception` handler, so no exception reaches
the caller — and its error taxonomy is: an invalid request yields
`validation_error`; an unknown (sanitized) language yields
`unsupported_language`; an exception raised inside the executor (inner
`try`) yields `executor_error`; an internal failure outside the inner `try`
(modelled by the executor constructor raising) yields `service_error`;
in every case `success=false`. -/
theorem C4_execute_code_error_taxonomy (registry : List PyStr)
    (sb : ServiceBehavior) (req : ExecutionRequest) :
    (req.validOK = false →
      (ExecutionService.execute_code registry sb req).success = false ∧
        ∃ e, (ExecutionService.execute_code registry sb req).error = some e ∧
          e.type = str2l "validation_error") ∧
    (req.validOK = true → get_language_by_id req.sanitize.language = none →
      (ExecutionService.execute_code registry sb req).success = false ∧
        ∃ e, (ExecutionService.execute_code registry sb req).error = some e ∧
          e.type = str2l "unsupported_language") ∧
    (req.validOK = true →
      ∀ lang, get_language_by_id req.sanitize.language = some lang →
      req.sanitize.language ∈ registry →
      ∀ m, sb.ctorRaises = some m →
      (ExecutionService.execute_code registry sb req).success = false ∧
        ∃ e, (ExecutionService.execute_code registry sb req).error = some e ∧
          e.type = str2l "service_error") ∧
    (req.validOK = true →
      ∀ lang, get_language_by_id req.sanitize.language = some lang →
      req.sanitize.language ∈ registry →
      sb.ctorRaises = none →
      ∀ m, sb.executorOutcome = .error m →
      (ExecutionService.execute_code registry sb req).success = false ∧
        ∃ e, (ExecutionService.execute_code registry sb req).error = some e ∧
          e.type = str2l "executor_error") := by
  refine ⟨fun hv => ?_, fun hv hlang => ?_, fun hv lang hlang hreg m hctor => ?_,
    fun hv lang hlang hreg hctor m hout => ?_⟩
  · simp only [ExecutionService.execute_code, hv, create_error_result]
    simp
  · simp only [ExecutionService.execute_code, hv, hlang, create_error_result]
    simp
  · simp only [ExecutionService.execute_code, hv, hlang, hctor, create_error_result]
    simp [hreg]
  · simp only [ExecutionService.execute_code, hv, hlang, hctor, hout, create_error_result]
    simp [hreg]

/-- Witness for C4: the four taxonomy branches at concrete inputs. -/
theorem C4_witness :
    ((ExecutionService.execute_code [] ⟨none, .ok { success := true }⟩
        ⟨str2l "python", [], none, none⟩).success = false ∧
      ∃ e, (ExecutionService.execute_code [] ⟨none, .ok { success := true }⟩
          ⟨str2l "python", [], none, none⟩).error = some e ∧
        e.type = str2l "validation_error") ∧
    ((ExecutionService.execute_code [] ⟨none, .ok { success := true }⟩
        ⟨str2l "cobol", str2l "x", none, none⟩).success = false ∧
      ∃ e, (ExecutionService.execute_code [] ⟨none, .ok { success := true }⟩
          ⟨str2l "cobol", str2l "x", none, none⟩).error = some e ∧
        e.type = str2l "unsupported_language") ∧
    ((ExecutionService.execute_code [str2l "python"] ⟨some (str2l "boom"), .ok { success := true }⟩
        ⟨str2l "python", str2l "print(1)", none, none⟩).success = false ∧
      ∃ e, (ExecutionService.execute_code [str2l "python"] ⟨some (str2l "boom"), .ok { success := true }⟩
          ⟨str2l "python", str2l "print(1)", none, none⟩).error = some e ∧
        e.type = str2l "service_error") ∧
    ((ExecutionService.execute_code [str2l "python"] ⟨none, .error (str2l "boom")⟩
        ⟨str2l "python", str2l "print(1)", none, none⟩).success = false ∧
      ∃ e, (ExecutionService.execute_code [str2l "python"] ⟨none, .error (str2l "boom")⟩
          ⟨str2l "python", str2l "print(1)", none, none⟩).error = some e ∧
        e.type = str2l "executor_error") :=
  ⟨(C4_execute_code_error_taxonomy [] _ _).1 (by decide),
   (C4_execute_code_error_taxonomy [] _ _).2.1 (by decide) (by decide),
   (C4_execute_code_error_taxonomy [str2l "python"] _ _).2.2.1 (by decide)
     ⟨str2l "python", str2l "Python", str2l ".py", true, 30⟩ (by decide) (by decide)
     (str2l "boom") rfl,
   (C4_execute_code_error_taxonomy [str2l "python"] _ _).2.2.2 (by decide)
     ⟨str2l "python", str2l "Python", str2l ".py", true, 30⟩ (by decide) (by decide)
     rfl (str2l "boom") rfl⟩

/-- C1: when the child does not finish within the timeout, the runner (on
POSIX) sends SIGTERM to the whole process group, sends SIGKILL to the group
if the process neither died from the signal attempt nor within the 2-second
grace wait, appends the synthetic notice
`"\nExecution timed out after N seconds"` to the captured stderr, and
returns `timed_out=true` with the partial output; the returned 4-tuple is
the same whether or not the `os.killpg` calls raise (`ProcessLookupError`/
`OSError` are swallowed and logged); and `BaseExecutor.execute` then turns
this into an `ExecutionResult` with `success=false`, `timeout=true` and
error type `timeout_error`. -/
theorem C1_timeout_protocol (timeout : Nat) (cmd : List PyStr) (o : ProcOutcome)
    (h : o.completesInTime = false) :
    (execute_with_timeout timeout cmd (.runs o) =
      ((o.stdout, o.stderr ++ timeoutNotice timeout, o.returncode, true),
       [.spawn cmd, .sigtermGroup] ++
         (if !o.termSignalRaises && !o.diesWithinGrace then [.sigkillGroup] else []))) ∧
    (∀ b1 b2 b3 : Bool,
      (execute_with_timeout timeout cmd (.runs
          { o with termSignalRaises := b1, diesWithinGrace := b2,
                   killSignalRaises := b3 })).1 =
        (execute_with_timeout timeout cmd (.runs o)).1) ∧
    (∀ (p : BaseParams) (code : PyStr) (inp : Option PyStr) (wb : WorkspaceBehavior)
        (fs : FS) (d : PyStr),
      wb.mkdirResult = .ok d → wb.writeRaises = none → p.timeout = timeout →
      (BaseExecutor.execute p code inp ⟨wb, .runs o⟩ ⟨none, []⟩ fs).1 =
          timeoutErrorResult timeout o.stdout (o.stderr ++ timeoutNotice timeout) ∧
        (BaseExecutor.execute p code inp ⟨wb, .runs o⟩ ⟨none, []⟩ fs).1.success = false ∧
        (BaseExecutor.execute p code inp ⟨wb, .runs o⟩ ⟨none, []⟩ fs).1.timeout = true ∧
        ∃ e, (BaseExecutor.execute p code inp ⟨wb, .runs o⟩ ⟨none, []⟩ fs).1.error = some e ∧
          e.type = str2l "timeout_error") := by
  refine ⟨by simp [execute_with_timeout, h], fun b1 b2 b3 => by
    simp [execute_with_timeout, h], fun p code inp wb fs d hmk hwr hpt => ?_⟩
  simp only [BaseExecutor.execute, create_temp_file, hmk, hwr, hpt,
    execute_with_timeout, h, Bool.false_eq_true, if_false]
  refine ⟨rfl, ?_⟩
  simp [timeoutErrorResult]

/-- Witness for C1: a hung two-second run is reported as a timeout. -/
theorem C1_witness :
    (BaseExecutor.execute (pythonParams 2) (str2l "while True: pass") none
        ⟨wbTriv, .runs procHung⟩ ⟨none, []⟩ {}).1 =
        timeoutErrorResult 2 procHung.stdout (procHung.stderr ++ timeoutNotice 2) ∧
      (BaseExecutor.execute (pythonParams 2) (str2l "while True: pass") none
        ⟨wbTriv, .runs procHung⟩ ⟨none, []⟩ {}).1.success = false ∧
      (BaseExecutor.execute (pythonParams 2) (str2l "while True: pass") none
        ⟨wbTriv, .runs procHung⟩ ⟨none, []⟩ {}).1.timeout = true ∧
      ∃ e, (BaseExecutor.execute (pythonParams 2) (str2l "while True: pass") none
          ⟨wbTriv, .runs procHung⟩ ⟨none, []⟩ {}).1.error = some e ∧
        e.type = str2l "timeout_error" :=
  (C1_timeout_protocol 2 [] procHung rfl).2.2 (pythonParams 2)
    (str2l "while True: pass") none wbTriv {} (str2l "/tmp/w_1") rfl rfl rfl

/-- C10: exit code 0 alone does not imply success.  For `BaseExecutor.execute`
(no timeout, workspace OK): if the process exits 0 but wrote non-whitespace
text to stderr, the result is `success=false` with the error classified from
that stderr; and `success=true` holds exactly when the run completes in time
with exit code 0 and whitespace-only stderr.  The same stderr rule holds for
the C executor's run step. -/
theorem C10_exit_zero_stderr_fails (p : BaseParams) (code : PyStr)
    (inp : Option PyStr) (wb : WorkspaceBehavior) (o : ProcOutcome) (fs : FS)
    (d : PyStr) (hmk : wb.mkdirResult = .ok d) (hwr : wb.writeRaises = none) :
    ((o.completesInTime = true → o.returncode = 0 → pyStrip o.stderr ≠ [] →
      (BaseExecutor.execute p code inp ⟨wb, .runs o⟩ ⟨none, []⟩ fs).1.success = false ∧
        (BaseExecutor.execute p code inp ⟨wb, .runs o⟩ ⟨none, []⟩ fs).1.error =
          p.parseErr o.stderr o.stdout) ∧
     ((BaseExecutor.execute p code inp ⟨wb, .runs o⟩ ⟨none, []⟩ fs).1.success = true ↔
       o.completesInTime = true ∧ o.returncode = 0 ∧ pyStrip o.stderr = [])) ∧
    (∀ (timeout : Nat) (cb : CBehavior) (comp : CCompiler) (co ro : ProcOutcome),
      validate_c_code code = none → cb.wb.mkdirResult = .ok d →
      cb.wb.writeRaises = none → cb.foundCompiler = some comp →
      cb.compileSB = .runs co → cb.runSB = .runs ro →
      co.completesInTime = true → co.returncode = 0 →
      ro.completesInTime = true → ro.returncode = 0 → pyStrip ro.stderr ≠ [] →
      (CExecutor.execute timeout code inp cb ⟨none, []⟩ fs).1.success = false ∧
        (CExecutor.execute timeout code inp cb ⟨none, []⟩ fs).1.error =
          parse_error_c ro.stderr ro.stdout) := by
  refine ⟨⟨fun hct hrc hse => ?_, ?_⟩,
    fun timeout cb comp co ro hvc hcmk hcwr hfc hcsb hrsb hcoc hcor hroc hror hrose => ?_⟩
  · simp [BaseExecutor.execute, create_temp_file, hmk, hwr, execute_with_timeout,
      hct, hrc, hse]
  · by_cases hct : o.completesInTime = true <;>
      by_cases hrc : o.returncode = 0 <;>
        by_cases hse : pyStrip o.stderr = [] <;>
          simp [BaseExecutor.execute, create_temp_file, hmk, hwr,
            execute_with_timeout, hct, hrc, hse, timeoutErrorResult]
  · simp [CExecutor.execute, create_temp_file, hvc, hcmk, hcwr, compile_c, hfc,
      hcsb, hrsb, run_c, execute_with_timeout, hcoc, hcor, hroc, hror, hrose]

/-- Witness for C10: exit code 0 with stderr text yields a classified
failure, and the success iff holds at that input. -/
theorem C10_witness :
    ((BaseExecutor.execute (pythonParams 30) (str2l "print(1)") none
        ⟨wbTriv, .runs procStderrOnly⟩ ⟨none, []⟩ {}).1.success = false ∧
      (BaseExecutor.execute (pythonParams 30) (str2l "print(1)") none
        ⟨wbTriv, .runs procStderrOnly⟩ ⟨none, []⟩ {}).1.error =
        (pythonParams 30).parseErr procStderrOnly.stderr procStderrOnly.stdout) ∧
    ((BaseExecutor.execute (pythonParams 30) (str2l "print(1)") none
        ⟨wbTriv, .runs procStderrOnly⟩ ⟨none, []⟩ {}).1.success = true ↔
      procStderrOnly.completesInTime = true ∧ procStderrOnly.returncode = 0 ∧
        pyStrip procStderrOnly.stderr = []) :=
  ⟨(C10_exit_zero_stderr_fails (pythonParams 30) (str2l "print(1)") none wbTriv
      procStderrOnly {} (str2l "/tmp/w_1") rfl rfl).1.1 rfl rfl (by decide),
   (C10_exit_zero_stderr_fails (pythonParams 30) (str2l "print(1)") none wbTriv
      procStderrOnly {} (str2l "/tmp/w_1") rfl rfl).1.2⟩

theorem cleanup_state_nil_nil (st : ExecutorState) (fs : FS) :
    (cleanup_temp_files st fs).1 = ⟨none, []⟩ := rfl

theorem base_execute_state_reset (p : BaseParams) (code : PyStr)
    (inp : Option PyStr) (b : BaseBehavior) (st : ExecutorState) (fs : FS) :
    (BaseExecutor.execute p code inp b st fs).2.1 = ⟨none, []⟩ := by
  unfold BaseExecutor.execute
  dsimp only
  repeat' split
  all_goals rfl

theorem c_execute_state_reset (timeout : Nat) (code : PyStr)
    (inp : Option PyStr) (cb : CBehavior) (st : ExecutorState) (fs : FS) :
    (CExecutor.execute timeout code inp cb st fs).2.1 = ⟨none, []⟩ := by
  unfold CExecutor.execute
  dsimp only
  repeat' split
  all_goals rfl

theorem go_execute_state_reset (timeout : Nat) (code : PyStr)
    (inp : Option PyStr) (gb : GoBehavior) (st : ExecutorState) (fs : FS) :
    (GoExecutor.execute timeout code inp gb st fs).2.1 = ⟨none, []⟩ := by
  unfold GoExecutor.execute
  dsimp only
  repeat' split
  all_goals rfl

/-- C3: after any `execute` call (success, error-result, or internal
exception path), the `finally`-guaranteed cleanup has run: the executor
state holds `temp_dir = None` and `temp_files = []`, the created workspace
directory is no longer live, and the written code file is no longer live;
and `cleanup_temp_files` is idempotent — calling it again on the resulting
state is the identity.  (In `PythonExecutor.execute` the security branch
returns before the base `try/finally`, but it also precedes any workspace
creation, so the post-state invariant holds on that path too.) -/
theorem C3_cleanup_always_runs :
    (∀ (st : ExecutorState) (fs : FS),
      cleanup_temp_files (cleanup_temp_files st fs).1 (cleanup_temp_files st fs).2 =
        cleanup_temp_files st fs) ∧
    (∀ (p : BaseParams) (code : PyStr) (inp : Option PyStr) (b : BaseBehavior)
        (fs : FS),
      (BaseExecutor.execute p code inp b ⟨none, []⟩ fs).2.1 = ⟨none, []⟩ ∧
      (∀ d, b.wb.mkdirResult = .ok d → d ≠ [] →
        d ∉ (BaseExecutor.execute p code inp b ⟨none, []⟩ fs).2.2.1.dirs) ∧
      (∀ d, b.wb.mkdirResult = .ok d → b.wb.writeRaises = none →
        (d ++ str2l "/" ++ (str2l "code" ++ p.file_extension)) ∉
          (BaseExecutor.execute p code inp b ⟨none, []⟩ fs).2.2.1.files)) ∧
    (∀ (timeout : Nat) (code : PyStr) (inp : Option PyStr) (b : BaseBehavior)
        (fs : FS),
      (PythonExecutor.execute timeout code inp b ⟨none, []⟩ fs).2.1 = ⟨none, []⟩) ∧
    (∀ (timeout : Nat) (code : PyStr) (inp : Option PyStr) (cb : CBehavior)
        (fs : FS),
      (CExecutor.execute timeout code inp cb ⟨none, []⟩ fs).2.1 = ⟨none, []⟩) ∧
    (∀ (timeout : Nat) (code : PyStr) (inp : Option PyStr) (gb : GoBehavior)
        (fs : FS),
      (GoExecutor.execute timeout code inp gb ⟨none, []⟩ fs).2.1 = ⟨none, []⟩) := by
  refine ⟨fun st fs => ?_, fun p code inp b fs => ⟨?_, fun d hmk hd => ?_,
    fun d hmk hwr => ?_⟩, fun timeout code inp b fs => ?_,
    fun timeout code inp cb fs => ?_, fun timeout code inp gb fs => ?_⟩
  · unfold cleanup_temp_files
    simp [List.filter_eq_self]
  · exact base_execute_state_reset p code inp b ⟨none, []⟩ fs
  · unfold BaseExecutor.execute create_temp_file
    rcases hw : b.wb.writeRaises with _ | e <;>
      simp [hmk, hw, cleanup_temp_files, hd, List.mem_filter]
  · unfold BaseExecutor.execute create_temp_file
    simp [hmk, hwr, cleanup_temp_files, List.mem_filter]
  · unfold PythonExecutor.execute
    split
    · rfl
    · exact base_execute_state_reset (pythonParams timeout) code inp b ⟨none, []⟩ fs
  · exact c_execute_state_reset timeout code inp cb ⟨none, []⟩ fs
  · exact go_execute_state_reset timeout code inp gb ⟨none, []⟩ fs

/-- Witness for C3: a concrete successful Python run ends with a reset
executor state, and the workspace directory and code file are gone. -/
theorem C3_witness :
    ((BaseExecutor.execute (pythonParams 30) (str2l "print(1)") none
        ⟨wbTriv, .runs procTriv⟩ ⟨none, []⟩ {}).2.1 = ⟨none, []⟩ ∧
      str2l "/tmp/w_1" ∉ (BaseExecutor.execute (pythonParams 30) (str2l "print(1)")
        none ⟨wbTriv, .runs procTriv⟩ ⟨none, []⟩ {}).2.2.1.dirs ∧
      (str2l "/tmp/w_1" ++ str2l "/" ++ (str2l "code" ++ str2l ".py")) ∉
        (BaseExecutor.execute (pythonParams 30) (str2l "print(1)") none
          ⟨wbTriv, .runs procTriv⟩ ⟨none, []⟩ {}).2.2.1.files) ∧
    cleanup_temp_files
        (cleanup_temp_files ⟨some (str2l "/tmp/w_1"), [str2l "/tmp/w_1/code.py"]⟩
          ⟨[str2l "/tmp/w_1"], [str2l "/tmp/w_1/code.py"]⟩).1
        (cleanup_temp_files ⟨some (str2l "/tmp/w_1"), [str2l "/tmp/w_1/code.py"]⟩
          ⟨[str2l "/tmp/w_1"], [str2l "/tmp/w_1/code.py"]⟩).2 =
      cleanup_temp_files ⟨some (str2l "/tmp/w_1"), [str2l "/tmp/w_1/code.py"]⟩
        ⟨[str2l "/tmp/w_1"], [str2l "/tmp/w_1/code.py"]⟩ :=
  ⟨⟨(C3_cleanup_always_runs.2.1 (pythonParams 30) (str2l "print(1)") none
      ⟨wbTriv, .runs procTriv⟩ {}).1,
    (C3_cleanup_always_runs.2.1 (pythonParams 30) (str2l "print(1)") none
      ⟨wbTriv, .runs procTriv⟩ {}).2.1 (str2l "/tmp/w_1") rfl (by decide),
    (C3_cleanup_always_runs.2.1 (pythonParams 30) (str2l "print(1)") none
      ⟨wbTriv, .runs procTriv⟩ {}).2.2 (str2l "/tmp/w_1") rfl rfl⟩,
   C3_cleanup_always_runs.1 ⟨some (str2l "/tmp/w_1"), [str2l "/tmp/w_1/code.py"]⟩
     ⟨[str2l "/tmp/w_1"], [str2l "/tmp/w_1/code.py"]⟩⟩

/-- C2 as stated is false for the Go executor: `GoExecutor.execute` runs its
toolchain probe (and workspace/cache set-up) before the security screen.
Concretely, with the `go` binary absent, the deny-listed program
`import "os"` is answered with `runtime_error` ("Go compiler not found"),
not `security_error`. -/
theorem C2_counterexample : ¬ C2_claim_go := by
  intro h
  obtain ⟨⟨e, he, het⟩, -, -, -⟩ := h 30 (str2l "import \"os\"") none
    ⟨false, .ok (str2l "/tmp/go_w"), true, wbTriv, .runs procTriv⟩ {} {} (by decide)
  have hcomp : (GoExecutor.execute 30 (str2l "import \"os\"") none
      ⟨false, .ok (str2l "/tmp/go_w"), true, wbTriv, .runs procTriv⟩
      {} {}).1.error.map (fun x => x.type) = some (str2l "runtime_error") := by decide
  rw [he] at hcomp
  simp at hcomp
  rw [het] at hcomp
  exact absurd hcomp (by decide)

/-- C2 (amended): a deny-list match is rejected with `security_error` and
`success=false` before the user's code is written or executed.  For the
Python executor the screen runs before anything else: the event trace is
empty (no file write, no subprocess).  For the Go executor the screen runs
after the `go version` toolchain probe and directory set-up, so — when the
probe succeeds and the workspace directory can be created — a deny-listed
request is rejected with `security_error`, no file is written, and the only
subprocess ever spawned is the probe itself (the user's code is never
run). -/
theorem C2_security_screen_blocks (timeout : Nat) (code : PyStr)
    (inp : Option PyStr) :
    (∀ (b : BaseBehavior) (st : ExecutorState) (fs : FS) (v : PyStr),
      validate_python_code code inp.isSome = some v →
      (PythonExecutor.execute timeout code inp b st fs).1 = securityErrorResult v ∧
        (PythonExecutor.execute timeout code inp b st fs).1.success = false ∧
        (∃ e, (PythonExecutor.execute timeout code inp b st fs).1.error = some e ∧
          e.type = str2l "security_error") ∧
        (PythonExecutor.execute timeout code inp b st fs).2.2.2 = []) ∧
    (∀ (gb : GoBehavior) (st : ExecutorState) (fs : FS) (d : PyStr) (v : PyStr),
      gb.goAvailable = true → gb.goMkdir = .ok d →
      validate_go_code code = some v →
      (GoExecutor.execute timeout code inp gb st fs).1 = securityErrorResult v ∧
        (GoExecutor.execute timeout code inp gb st fs).1.success = false ∧
        (∃ e, (GoExecutor.execute timeout code inp gb st fs).1.error = some e ∧
          e.type = str2l "security_error") ∧
        (∀ pth, Event.fileWrite pth ∉ (GoExecutor.execute timeout code inp gb st fs).2.2.2) ∧
        (∀ cmd, Event.spawn cmd ∈ (GoExecutor.execute timeout code inp gb st fs).2.2.2 →
          cmd = [str2l "go", str2l "version"])) := by
  constructor
  · intro b st fs v hval
    unfold PythonExecutor.execute
    rw [hval]
    simp [securityErrorResult]
  · intro gb st fs d v hgo hmk hval
    rcases hst : st.temp_dir with _ | d0 <;>
      simp only [GoExecutor.execute, hgo, hmk, hst, hval, Bool.not_true,
        Bool.false_eq_true, if_false, reduceIte] <;>
      by_cases hc : gb.homeCacheOK <;>
        simp [hc, securityErrorResult] <;>
        intro cmd h <;> simp_all

/-- Witness for C2 (amended): `import os` in Python and `import "os"` in Go
are both rejected with `security_error`, with no user-code write or run. -/
theorem C2_witness :
    ((PythonExecutor.execute 30 (str2l "import os") none
        ⟨wbTriv, .runs procTriv⟩ ⟨none, []⟩ {}).1 =
        securityErrorResult (str2l "Import of potentially unsafe module: os") ∧
      (PythonExecutor.execute 30 (str2l "import os") none
        ⟨wbTriv, .runs procTriv⟩ ⟨none, []⟩ {}).1.success = false ∧
      (∃ e, (PythonExecutor.execute 30 (str2l "import os") none
          ⟨wbTriv, .runs procTriv⟩ ⟨none, []⟩ {}).1.error = some e ∧
        e.type = str2l "security_error") ∧
      (PythonExecutor.execute 30 (str2l "import os") none
        ⟨wbTriv, .runs procTriv⟩ ⟨none, []⟩ {}).2.2.2 = []) ∧
    ((GoExecutor.execute 30 (str2l "import \"os\"") none
        ⟨true, .ok (str2l "/tmp/go_w"), true, wbTriv, .runs procTriv⟩ ⟨none, []⟩ {}).1 =
        securityErrorResult
          (str2l "Code contains potentially unsafe import: import\\s+\"os\"") ∧
      (GoExecutor.execute 30 (str2l "import \"os\"") none
        ⟨true, .ok (str2l "/tmp/go_w"), true, wbTriv, .runs procTriv⟩ ⟨none, []⟩ {}).1.success = false) :=
  ⟨(C2_security_screen_blocks 30 (str2l "import os") none).1
      ⟨wbTriv, .runs procTriv⟩ ⟨none, []⟩ {}
      (str2l "Import of potentially unsafe module: os") (by decide),
   ⟨((C2_security_screen_blocks 30 (str2l "import \"os\"") none).2
      ⟨true, .ok (str2l "/tmp/go_w"), true, wbTriv, .runs procTriv⟩ ⟨none, []⟩ {}
      (str2l "/tmp/go_w")
      (str2l "Code contains potentially unsafe import: import\\s+\"os\"")
      rfl rfl (by decide)).1,
    ((C2_security_screen_blocks 30 (str2l "import \"os\"") none).2
      ⟨true, .ok (str2l "/tmp/go_w"), true, wbTriv, .runs procTriv⟩ ⟨none, []⟩ {}
      (str2l "/tmp/go_w")
      (str2l "Code contains potentially unsafe import: import\\s+\"os\"")
      rfl rfl (by decide)).2.1⟩⟩

/-- C5 as stated is false for the Go executor (which the claim lists among
the compiled languages): a successful Go execution launches the user's
program with a single `go run` subprocess — there is no separate compile
launch.  Concretely, `fmt.Println(1)` yields exactly one non-probe spawn,
not two. -/
theorem C5_counterexample : ¬ C5_claim_go := by
  intro h
  have h1 := h 30 (str2l "fmt.Println(1)") none
    ⟨true, .ok (str2l "/tmp/go_w"), true, wbTriv, .runs procTriv⟩ {}
    (str2l "/tmp/go_w") rfl rfl rfl (by decide)
  exact absurd h1 (by decide)

/-- C5 (amended): the C executor is two chained launches — the compile step
runs with its own captured streams and exit code, and the run step is
launched iff the compile step exited 0 without timing out; when the
pre-flight toolchain probe finds no compiler, the executor returns
`success=false` with a `runtime_error` ("C compiler not found…") and spawns
nothing.  The Go executor also probes first (`go version`; if the probe
fails it returns a `runtime_error` "Go compiler not found…" without
spawning anything), but it then delegates compile-and-run to one single
`go run` launch rather than two chained launches. -/
theorem C5_compile_then_run (timeout : Nat) (code : PyStr) (inp : Option PyStr) :
    (∀ (cb : CBehavior) (fs : FS) (d : PyStr),
      validate_c_code code = none → cb.wb.mkdirResult = .ok d →
      cb.wb.writeRaises = none → cb.foundCompiler = none →
      (CExecutor.execute timeout code inp cb ⟨none, []⟩ fs).1.success = false ∧
        (CExecutor.execute timeout code inp cb ⟨none, []⟩ fs).1.error =
          parse_error_c (str2l "C compiler not found. Please install gcc, clang, or Visual Studio Build Tools.") [] ∧
        (∃ e, (CExecutor.execute timeout code inp cb ⟨none, []⟩ fs).1.error = some e ∧
          e.type = str2l "runtime_error") ∧
        spawnedCmds (CExecutor.execute timeout code inp cb ⟨none, []⟩ fs).2.2.2 = []) ∧
    (∀ (cb : CBehavior) (fs : FS) (d : PyStr) (comp : CCompiler) (co ro : ProcOutcome),
      validate_c_code code = none → cb.wb.mkdirResult = .ok d →
      cb.wb.writeRaises = none → cb.foundCompiler = some comp →
      cb.compileSB = .runs co → cb.runSB = .runs ro →
      spawnedCmds (CExecutor.execute timeout code inp cb ⟨none, []⟩ fs).2.2.2 =
        [probeCmd comp,
         (match comp with
          | .cl => [str2l "cl", str2l "/TC", str2l "/Fe:" ++ (d ++ str2l "/program"),
              d ++ str2l "/" ++ str2l "program.c"]
          | .gcc => [str2l "gcc", str2l "-std=c11", str2l "-Wall", str2l "-o",
              d ++ str2l "/program", d ++ str2l "/" ++ str2l "program.c"]
          | .clang => [str2l "clang", str2l "-std=c11", str2l "-Wall", str2l "-o",
              d ++ str2l "/program", d ++ str2l "/" ++ str2l "program.c"])] ++
        (if co.returncode = 0 ∧ co.completesInTime = true
         then [[d ++ str2l "/program"]] else []) ∧
      (¬(co.returncode = 0 ∧ co.completesInTime = true) →
        (CExecutor.execute timeout code inp cb ⟨none, []⟩ fs).1.success = false ∧
          (CExecutor.execute timeout code inp cb ⟨none, []⟩ fs).1.output = co.stdout)) ∧
    (∀ (gb : GoBehavior) (st : ExecutorState) (fs : FS),
      gb.goAvailable = false →
      (GoExecutor.execute timeout code inp gb st fs).1.success = false ∧
        (∃ e, (GoExecutor.execute timeout code inp gb st fs).1.error = some e ∧
          e.type = str2l "runtime_error" ∧
          e.message = str2l "Go compiler not found. Please install Go.") ∧
        (GoExecutor.execute timeout code inp gb st fs).2.2.2 = []) ∧
    (∀ (gb : GoBehavior) (fs : FS) (d : PyStr) (ro : ProcOutcome),
      gb.goAvailable = true → gb.goMkdir = .ok d → gb.wb.writeRaises = none →
      validate_go_code code = none → gb.runSB = .runs ro →
      goNonProbeSpawns (GoExecutor.execute timeout code inp gb ⟨none, []⟩ fs).2.2.2 =
        [[str2l "go", str2l "run", d ++ str2l "/" ++ str2l "main.go"]]) := by
  refine ⟨fun cb fs d hval hmk hwr hfc => ?_,
    fun cb fs d comp co ro hval hmk hwr hfc hcsb hrsb => ?_,
    fun gb st fs hgo => ?_,
    fun gb fs d ro hgo hmk hwr hval hrsb => ?_⟩
  · have hparse : parse_error_c (str2l "C compiler not found. Please install gcc, clang, or Visual Studio Build Tools.") [] =
        some { type := str2l "runtime_error",
               message := str2l "C compiler not found. Please install gcc, clang, or Visual Studio Build Tools.",
               line := none,
               details := some (str2l "C compiler not found. Please install gcc, clang, or Visual Studio Build Tools.") } := by
      decide
    simp [CExecutor.execute, hval, create_temp_file, hmk, hwr, compile_c, hfc,
      spawnedCmds, hparse]
  · by_cases hco : co.returncode = 0 ∧ co.completesInTime = true
    · obtain ⟨hrc, hct⟩ := hco
      by_cases hro : ro.completesInTime = true <;>
        simp [CExecutor.execute, hval, create_temp_file, hmk, hwr, compile_c, hfc,
          hcsb, hrsb, run_c, execute_with_timeout, hrc, hct, hro, spawnedCmds,
          List.filterMap_append] <;>
        (intros; subst_vars; rfl)
    · have hcases : co.completesInTime = false ∨
          (co.completesInTime = true ∧ ¬ co.returncode = 0) := by
        rcases Bool.eq_false_or_eq_true co.completesInTime with hb | hb
        · exact Or.inr ⟨hb, fun hrc => hco ⟨hrc, hb⟩⟩
        · exact Or.inl hb
      rcases hcases with hb | ⟨hb, hrc⟩
      · simp [CExecutor.execute, hval, create_temp_file, hmk, hwr, compile_c, hfc,
          hcsb, hrsb, run_c, execute_with_timeout, hb, spawnedCmds,
          List.filterMap_append, hco] <;>
        (intros; subst_vars; rfl)
      · simp [CExecutor.execute, hval, create_temp_file, hmk, hwr, compile_c, hfc,
          hcsb, hrsb, run_c, execute_with_timeout, hb, hrc, spawnedCmds,
          List.filterMap_append, hco]
  · simp [GoExecutor.execute, hgo]
  · rcases hst : (⟨none, []⟩ : ExecutorState).temp_dir with _ | d0
    · by_cases hc : gb.homeCacheOK <;>
        by_cases hro : ro.completesInTime = true <;>
        simp [GoExecutor.execute, hgo, hmk, hval, hwr, hrsb, hc, hro,
          create_temp_file, execute_with_timeout, goNonProbeSpawns, spawnedCmds,
          List.filterMap_append] <;>
        (intros; subst_vars; simp_all)
    · simp at hst

/-- Witness for C5 (amended): with no C compiler nothing is spawned; with
gcc present a C run spawns probe, compile, then run; with `go` absent
nothing is spawned; with `go` present a Go run is one single `go run`
launch. -/
theorem C5_witness :
    spawnedCmds (CExecutor.execute 30 (str2l "int x = 1;") none
        ⟨none, wbTriv, .runs procTriv, .runs procTriv⟩ ⟨none, []⟩ {}).2.2.2 = [] ∧
    spawnedCmds (CExecutor.execute 30 (str2l "int x = 1;") none
        ⟨some .gcc, wbTriv, .runs procTriv, .runs procTriv⟩ ⟨none, []⟩ {}).2.2.2 =
      [probeCmd .gcc,
       [str2l "gcc", str2l "-std=c11", str2l "-Wall", str2l "-o",
        str2l "/tmp/w_1" ++ str2l "/program",
        str2l "/tmp/w_1" ++ str2l "/" ++ str2l "program.c"],
       [str2l "/tmp/w_1" ++ str2l "/program"]] ∧
    (GoExecutor.execute 30 (str2l "fmt.Println(1)") none
        ⟨false, .ok (str2l "/tmp/go_w"), true, wbTriv, .runs procTriv⟩ {} {}).2.2.2 = [] ∧
    goNonProbeSpawns (GoExecutor.execute 30 (str2l "fmt.Println(1)") none
        ⟨true, .ok (str2l "/tmp/go_w"), true, wbTriv, .runs procTriv⟩ ⟨none, []⟩ {}).2.2.2 =
      [[str2l "go", str2l "run", str2l "/tmp/go_w" ++ str2l "/" ++ str2l "main.go"]] := by
  refine ⟨?_, ?_, ?_, ?_⟩
  · exact ((C5_compile_then_run 30 (str2l "int x = 1;") none).1
      ⟨none, wbTriv, .runs procTriv, .runs procTriv⟩ {} (str2l "/tmp/w_1")
      (by decide) rfl rfl rfl).2.2.2
  · have h := ((C5_compile_then_run 30 (str2l "int x = 1;") none).2.1
      ⟨some .gcc, wbTriv, .runs procTriv, .runs procTriv⟩ {} (str2l "/tmp/w_1")
      .gcc procTriv procTriv (by decide) rfl rfl rfl rfl rfl).1
    simpa using h
  · exact ((C5_compile_then_run 30 (str2l "fmt.Println(1)") none).2.2.1
      ⟨false, .ok (str2l "/tmp/go_w"), true, wbTriv, .runs procTriv⟩ {} {} rfl).2.2
  · exact (C5_compile_then_run 30 (str2l "fmt.Println(1)") none).2.2.2
      ⟨true, .ok (str2l "/tmp/go_w"), true, wbTriv, .runs procTriv⟩ {}
      (str2l "/tmp/go_w") procTriv rfl rfl rfl (by decide) rfl

end CodeEditor
